import Mathlib

set_option linter.unusedVariables false

/-!
Verification of the coevolutionary bacteria/phagocyte simulation engine.

The definitions below are a shallow embedding of the Python sources
(backend/core/agents.py, backend/core/simulation.py, backend/core/fitness.py,
backend/models/genome.py, backend/core/genetic_algorithm.py, backend/config.py).

Modelling conventions:
- Python floats are modelled as real numbers; `math.sqrt` is `Real.sqrt`,
  `math.sin`/`math.cos` are `Real.sin`/`Real.cos`, `math.atan2 y x` is
  `Complex.arg ⟨x, y⟩`.
- Python dicts mapping gene names to floats are association lists
  `List (String × ℝ)` (Python dicts preserve insertion order); `dict.get`
  with a default is `geneD`.
- Every call into the `random` module is modelled as an explicit oracle
  argument (the value the call returned), quantified in the theorems.
- Python `list.sort` (Timsort) is stable; it is modelled by Mathlib's
  stable `List.insertionSort` on the same key, which produces the same
  (unique) stable-sorted permutation.
- Agent classes become structures; in-place mutation becomes returning an
  updated value.  Integer-valued counters that the code keeps non-negative
  (`age`, `reproduction_cooldown`, `offspring_count`, generation counters)
  are modelled as `ℕ`.
-/

namespace SimulationConfig

/-- config.py: CANVAS_WIDTH = 800 -/
def CANVAS_WIDTH : ℝ := 800

/-- config.py: CANVAS_HEIGHT = 600 -/
def CANVAS_HEIGHT : ℝ := 600

/-- config.py: BACKGROUND_COLOR = (240, 240, 240) -/
def BACKGROUND_COLOR : ℤ × ℤ × ℤ := (240, 240, 240)

/-- config.py: MAX_POPULATION = 200 (used only in length comparisons) -/
def MAX_POPULATION : ℕ := 200

/-- config.py: MUTATION_RATE = 0.01 -/
def MUTATION_RATE : ℝ := 0.01

/-- config.py: MUTATION_STRENGTH = 0.1 -/
def MUTATION_STRENGTH : ℝ := 0.1

/-- config.py: MAX_SPEED = 2.0 -/
def MAX_SPEED : ℝ := 2.0

/-- config.py: TURN_RATE = 0.1 -/
def TURN_RATE : ℝ := 0.1

/-- config.py: DETECTION_RADIUS = 50.0 -/
def DETECTION_RADIUS : ℝ := 50.0

/-- config.py: CAPTURE_RADIUS = 10.0 -/
def CAPTURE_RADIUS : ℝ := 10.0

/-- config.py: ENERGY_GAIN = 10.0 -/
def ENERGY_GAIN : ℝ := 10.0

/-- config.py: ENERGY_LOSS = 1.0 -/
def ENERGY_LOSS : ℝ := 1.0

/-- config.py: GENERATIONS_PER_EPOCH = 50 -/
def GENERATIONS_PER_EPOCH : ℕ := 50

/-- config.py: AGENT_SIZE = 5.0 -/
def AGENT_SIZE : ℝ := 5.0

/-- config.py: PHAGOCYTE_SIZE = 8.0 -/
def PHAGOCYTE_SIZE : ℝ := 8.0

/-- config.py: RANKING_UPDATE_FREQUENCY = 5 -/
def RANKING_UPDATE_FREQUENCY : ℕ := 5

/-- config.py: VULNERABILITY_COLOR_WEIGHT = 0.6 -/
def VULNERABILITY_COLOR_WEIGHT : ℝ := 0.6

/-- config.py: VULNERABILITY_ENERGY_WEIGHT = 0.3 -/
def VULNERABILITY_ENERGY_WEIGHT : ℝ := 0.3

/-- config.py: VULNERABILITY_AGE_WEIGHT = 0.1 -/
def VULNERABILITY_AGE_WEIGHT : ℝ := 0.1

/-- config.py: MAX_GLUCOSE_COUNT = 50 -/
def MAX_GLUCOSE_COUNT : ℕ := 50

/-- config.py: GLUCOSE_SPAWN_RATE = 0.1 -/
def GLUCOSE_SPAWN_RATE : ℝ := 0.1

/-- config.py: BACTERIA_GLUCOSE_CONSUMPTION_RATE = 0.5 -/
def BACTERIA_GLUCOSE_CONSUMPTION_RATE : ℝ := 0.5

/-- config.py: GLUCOSE_RESPAWN_THRESHOLD = 10 -/
def GLUCOSE_RESPAWN_THRESHOLD : ℕ := 10

/-- config.py: BACTERIA_REPRODUCTION_ENERGY_THRESHOLD = 150.0 -/
def BACTERIA_REPRODUCTION_ENERGY_THRESHOLD : ℝ := 150.0

/-- config.py: BACTERIA_REPRODUCTION_ENERGY_COST = 75.0 -/
def BACTERIA_REPRODUCTION_ENERGY_COST : ℝ := 75.0

/-- config.py: BACTERIA_REPRODUCTION_COOLDOWN = 10 -/
def BACTERIA_REPRODUCTION_COOLDOWN : ℕ := 10

/-- config.py: BACTERIA_OFFSET_DISTANCE = 15.0 -/
def BACTERIA_OFFSET_DISTANCE : ℝ := 15.0

/-- config.py: BACTERIA_REPRODUCTION_MUTATION_RATE = 0.2 -/
def BACTERIA_REPRODUCTION_MUTATION_RATE : ℝ := 0.2

end SimulationConfig

/-- Python `genome.get(key, default)` on a gene dict. -/
def geneD (genome : List (String × ℝ)) (key : String) (default : ℝ) : ℝ :=
  (genome.lookup key).getD default

/-- Python dict assignment `genome[key] = v` (replace if present, else append). -/
def setGene : List (String × ℝ) → String → ℝ → List (String × ℝ)
  | [], k, v => [(k, v)]
  | (k0, v0) :: rest, k, v =>
    if k0 = k then (k, v) :: rest else (k0, v0) :: setGene rest k v

/-- agents.py `Agent.normalize_velocity`. -/
noncomputable def normalize_velocity (vx vy : ℝ) : ℝ × ℝ :=
  let speed := Real.sqrt (vx ^ 2 + vy ^ 2)
  if speed > 0 then (vx / speed, vy / speed) else (vx, vy)

/-- agents.py `Agent`: the common fields of all agents. -/
structure Agent where
  id : String
  species : String
  x : ℝ
  y : ℝ
  genome : List (String × ℝ)
  color : ℤ × ℤ × ℤ
  fitness : ℝ
  energy : ℝ
  age : ℕ
  vx : ℝ
  vy : ℝ

/-- agents.py `Agent.is_alive`: `self.energy > 0 and self.age < 1000`. -/
def Agent.is_alive (a : Agent) : Prop :=
  a.energy > 0 ∧ a.age < 1000

noncomputable instance Agent.is_alive.dec (a : Agent) : Decidable a.is_alive := by
  unfold Agent.is_alive; infer_instance

/-- agents.py `Agent.move(canvas_width, canvas_height)`.
`jx`, `jy` are the two `random.uniform(-turn_rate, turn_rate)` draws. -/
noncomputable def Agent.move (a : Agent) (canvas_width canvas_height : ℝ)
    (jx jy : ℝ) : Agent :=
  let max_speed := SimulationConfig.MAX_SPEED
  let v0 := normalize_velocity (a.vx + jx) (a.vy + jy)
  let new_x := a.x + v0.1 * max_speed
  let new_y := a.y + v0.2 * max_speed
  let agent_size :=
    if a.species = "bacteria" then SimulationConfig.AGENT_SIZE
    else SimulationConfig.PHAGOCYTE_SIZE
  -- left/right wall collision (axis handled independently)
  let hx : ℝ × ℝ × Bool :=
    if new_x - agent_size < 0 then (|v0.1|, agent_size, true)
    else if new_x + agent_size > canvas_width then (-|v0.1|, canvas_width - agent_size, true)
    else (v0.1, new_x, false)
  -- top/bottom wall collision
  let hy : ℝ × ℝ × Bool :=
    if new_y - agent_size < 0 then (|v0.2|, agent_size, true)
    else if new_y + agent_size > canvas_height then (-|v0.2|, canvas_height - agent_size, true)
    else (v0.2, new_y, false)
  let collided := hx.2.2 || hy.2.2
  let v1 :=
    if collided then normalize_velocity (hx.1 * 0.9) (hy.1 * 0.9) else (hx.1, hy.1)
  { a with
    x := hx.2.1, y := hy.2.1, vx := v1.1, vy := v1.2,
    age := a.age + 1,
    energy := max 0 (min 200 (a.energy - SimulationConfig.ENERGY_LOSS)) }

/-- agents.py `Bacteria`, extending `Agent`. -/
structure Bacteria extends Agent where
  length_gene : ℝ
  width_gene : ℝ
  reproduction_cooldown : ℕ
  offspring_count : ℕ
  parent_id : Option String
  direction : ℝ

/-- agents.py `Bacteria.genome_to_color` (Python `int()` of a value ≥ 50 is `⌊·⌋`). -/
noncomputable def genome_to_color (color_gene : ℝ) : ℤ × ℤ × ℤ :=
  (⌊150 + 100 * Real.sin (color_gene * Real.pi)⌋,
   ⌊150 + 100 * Real.sin (color_gene * Real.pi * 1.7)⌋,
   ⌊150 + 100 * Real.sin (color_gene * Real.pi * 2.3)⌋)

/-- agents.py `Bacteria.move`: base move, then update `direction` from velocity. -/
noncomputable def Bacteria.move (b : Bacteria) (canvas_width canvas_height : ℝ)
    (jx jy : ℝ) : Bacteria :=
  let a := b.toAgent.move canvas_width canvas_height jx jy
  { b with
    toAgent := a
    direction :=
      if |a.vx| > 0.01 ∨ |a.vy| > 0.01 then Complex.arg ⟨a.vx, a.vy⟩ else b.direction }

/-- agents.py `Bacteria.calculate_fitness(background_color)` (sets `self.fitness`). -/
noncomputable def Bacteria.calculate_fitness (b : Bacteria)
    (background_color : ℤ × ℤ × ℤ) : Bacteria :=
  let color_diff :=
    Real.sqrt ((((b.color.1 - background_color.1 : ℤ) : ℝ) / 255) ^ 2 +
               (((b.color.2.1 - background_color.2.1 : ℤ) : ℝ) / 255) ^ 2 +
               (((b.color.2.2 - background_color.2.2 : ℤ) : ℝ) / 255) ^ 2) / Real.sqrt 3
  let fitness0 := max 0 (1 - color_diff)
  let energy_bonus := b.energy / 200
  { b with fitness := 0.7 * fitness0 + 0.3 * energy_bonus }

/-- agents.py `Bacteria.calculate_vulnerability(background_color)`. -/
noncomputable def Bacteria.calculate_vulnerability (b : Bacteria)
    (background_color : ℤ × ℤ × ℤ) : ℝ :=
  Real.sqrt ((((b.color.1 - background_color.1 : ℤ) : ℝ) / 255) ^ 2 +
             (((b.color.2.1 - background_color.2.1 : ℤ) : ℝ) / 255) ^ 2 +
             (((b.color.2.2 - background_color.2.2 : ℤ) : ℝ) / 255) ^ 2) / Real.sqrt 3

/-- agents.py `Bacteria.get_vulnerability_score(background_color)`. -/
noncomputable def Bacteria.get_vulnerability_score (b : Bacteria)
    (background_color : ℤ × ℤ × ℤ) : ℝ :=
  let color_vulnerability := b.calculate_vulnerability background_color
  let energy_factor := 1 - b.energy / 200
  let age_factor := min 1 ((b.age : ℝ) / 500)
  min 1 (max 0
    (SimulationConfig.VULNERABILITY_COLOR_WEIGHT * color_vulnerability +
     SimulationConfig.VULNERABILITY_ENERGY_WEIGHT * energy_factor +
     SimulationConfig.VULNERABILITY_AGE_WEIGHT * age_factor))

/-- agents.py `Bacteria.can_reproduce_asexually`. -/
def Bacteria.can_reproduce_asexually (b : Bacteria) : Prop :=
  b.energy ≥ SimulationConfig.BACTERIA_REPRODUCTION_ENERGY_THRESHOLD ∧
  b.reproduction_cooldown ≤ 0 ∧ b.is_alive

noncomputable instance Bacteria.can_reproduce_asexually.dec (b : Bacteria) :
    Decidable b.can_reproduce_asexually := by
  unfold Bacteria.can_reproduce_asexually; infer_instance

/-- The random draws consumed by `Bacteria.__init__` (position/velocity/direction
defaults and `genome.get(..., random.random())` fallbacks). -/
structure BactInit where
  vx : ℝ
  vy : ℝ
  dir : ℝ
  defColorGene : ℝ
  defLen : ℝ
  defWid : ℝ

/-- The random draws consumed by one `Bacteria.reproduce_asexually` call. -/
structure ReproOracle where
  mutRoll : ℕ → ℝ
  gauss : ℕ → ℝ
  colorRoll : ℕ → ℝ
  newGeneRoll : ℝ
  newGeneIdx : ℕ
  newGeneVal : ℝ
  angle : ℝ
  childId : String
  childInit : BactInit
  dirDelta : ℝ

/-- agents.py `Bacteria.__init__` with explicit position/genome/parent
(the path taken when reproducing: `Bacteria(x=..., y=..., genome=..., parent_id=...)`). -/
noncomputable def mkBacteria (id : String) (x y : ℝ) (genome : List (String × ℝ))
    (parent_id : Option String) (o : BactInit) : Bacteria :=
  let color := genome_to_color (geneD genome "color_gene" o.defColorGene)
  let v := normalize_velocity o.vx o.vy
  { id := id, species := "bacteria", x := x, y := y, genome := genome, color := color,
    fitness := 0, energy := 100, age := 0, vx := v.1, vy := v.2,
    length_gene := geneD genome "length_gene" o.defLen,
    width_gene := geneD genome "width_gene" o.defWid,
    reproduction_cooldown := 0, offspring_count := 0, parent_id := parent_id,
    direction := o.dir }

/-- agents.py `Bacteria._create_child_genome` (leading underscore dropped). -/
noncomputable def Bacteria.create_child_genome (b : Bacteria) (o : ReproOracle) :
    List (String × ℝ) :=
  let mutation_rate := SimulationConfig.BACTERIA_REPRODUCTION_MUTATION_RATE
  let mutation_strength := SimulationConfig.MUTATION_STRENGTH * 0.5
  let mutated := b.genome.enum.map fun q =>
    if o.mutRoll q.1 < mutation_rate then
      -- gaussian mutation: the np.random.normal(0, strength) sample is
      -- strength * (standard normal draw); clamp to [0, 1]
      let v1 := max 0 (min 1 (q.2.2 + mutation_strength * o.gauss q.1))
      -- extra controlled color mutation for color_gene, clamp again
      if q.2.1 = "color_gene" then (q.2.1, max 0 (min 1 (v1 + o.colorRoll q.1)))
      else (q.2.1, v1)
    else (q.2.1, q.2.2)
  if o.newGeneRoll < mutation_rate * 0.1 then
    setGene mutated ("special_gene_" ++ toString o.newGeneIdx) o.newGeneVal
  else mutated

/-- agents.py `Bacteria.reproduce_asexually`: returns the updated parent and the
optional child (None when the preconditions fail). -/
noncomputable def Bacteria.reproduce_asexually (b : Bacteria) (o : ReproOracle) :
    Bacteria × Option Bacteria :=
  if ¬ b.can_reproduce_asexually then (b, none) else
  let reproduction_cost := SimulationConfig.BACTERIA_REPRODUCTION_ENERGY_COST
  let parent :=
    { b with
      energy := b.energy - reproduction_cost,
      reproduction_cooldown := SimulationConfig.BACTERIA_REPRODUCTION_COOLDOWN,
      offspring_count := b.offspring_count + 1 }
  let child_genome := b.create_child_genome o
  let offset_distance := SimulationConfig.BACTERIA_OFFSET_DISTANCE
  let child_x := max 0 (min (b.x + offset_distance * Real.cos o.angle)
    SimulationConfig.CANVAS_WIDTH)
  let child_y := max 0 (min (b.y + offset_distance * Real.sin o.angle)
    SimulationConfig.CANVAS_HEIGHT)
  let child0 := mkBacteria o.childId child_x child_y child_genome (some b.id) o.childInit
  let child :=
    { child0 with energy := reproduction_cost * 0.5, direction := b.direction + o.dirDelta }
  (parent, some child)

/-- agents.py `Bacteria.update_reproduction_cooldown`. -/
def Bacteria.update_reproduction_cooldown (b : Bacteria) : Bacteria :=
  if b.reproduction_cooldown > 0 then
    { b with reproduction_cooldown := b.reproduction_cooldown - 1 }
  else b

/-- agents.py `Phagocyte`, extending `Agent` (no extra persistent fields). -/
structure Phagocyte extends Agent

/-- agents.py `Phagocyte.calculate_fitness(background_color, bacteria_list)`. -/
noncomputable def Phagocyte.calculate_fitness (p : Phagocyte)
    (background_color : ℤ × ℤ × ℤ) (bacteria_list : List Bacteria) : Phagocyte :=
  let sensitivity := geneD p.genome "sensitivity_gene" 0.5
  let aggression := geneD p.genome "aggression_gene" 0.5
  let fitness0 := 0.6 * sensitivity + 0.4 * aggression
  let fitness1 := 0.6 * fitness0 + 0.4 * (p.energy / 200)
  if bacteria_list.length > 0 then
    let avg_bacteria_fitness :=
      (bacteria_list.map fun b => b.fitness).sum / (bacteria_list.length : ℝ)
    let detection_success :=
      max 0 (1 - avg_bacteria_fitness * (1 - sensitivity * aggression))
    { p with fitness := 0.5 * fitness1 + 0.5 * detection_success }
  else { p with fitness := fitness1 }

/-- agents.py `Phagocyte.detect_bacteria(bacteria, background_color)`. -/
def Phagocyte.detect_bacteria (p : Phagocyte) (b : Bacteria)
    (background_color : ℤ × ℤ × ℤ) : Prop :=
  let sensitivity := geneD p.genome "sensitivity_gene" 0.5
  let aggression := geneD p.genome "aggression_gene" 0.5
  let color_diff :=
    Real.sqrt ((((b.color.1 - background_color.1 : ℤ) : ℝ) / 255) ^ 2 +
               (((b.color.2.1 - background_color.2.1 : ℤ) : ℝ) / 255) ^ 2 +
               (((b.color.2.2 - background_color.2.2 : ℤ) : ℝ) / 255) ^ 2) / Real.sqrt 3
  let camouflage_effect := 1 - b.fitness
  let base_threshold := 1 - sensitivity * (0.7 + 0.3 * aggression)
  let adjusted_threshold := base_threshold * (0.5 + 0.5 * camouflage_effect)
  color_diff > adjusted_threshold

noncomputable instance Phagocyte.detect_bacteria.dec (p : Phagocyte) (b : Bacteria)
    (bg : ℤ × ℤ × ℤ) : Decidable (p.detect_bacteria b bg) :=
  Classical.propDecidable _

/-- agents.py `Phagocyte.chase_bacteria(bacteria)`: steers toward the target and
scales the velocity by the gene-dependent max speed; changes only `vx`/`vy`. -/
noncomputable def Phagocyte.chase_bacteria (p : Phagocyte) (b : Bacteria) : Phagocyte :=
  let dx := b.x - p.x
  let dy := b.y - p.y
  let dist := Real.sqrt (dx ^ 2 + dy ^ 2)
  if dist > 0 then
    let dxn := dx / dist
    let dyn := dy / dist
    let aggression := geneD p.genome "aggression_gene" 0.5
    let speed_gene := geneD p.genome "speed_gene" 0.5
    let max_speed := SimulationConfig.MAX_SPEED * (1 + 0.5 * (speed_gene + aggression))
    let turn_rate := SimulationConfig.TURN_RATE * (1 + speed_gene)
    let v := normalize_velocity (p.vx + dxn * turn_rate) (p.vy + dyn * turn_rate)
    { p with vx := v.1 * max_speed, vy := v.2 * max_speed }
  else p

/-- agents.py `Phagocyte.capture_bacteria(bacteria)`: returns the Python return
value and the updated phagocyte (only `energy` is assigned, and only on success). -/
noncomputable def Phagocyte.capture_bacteria (p : Phagocyte) (b : Bacteria) :
    Bool × Phagocyte :=
  let dist := Real.sqrt ((b.x - p.x) ^ 2 + (b.y - p.y) ^ 2)
  if dist < SimulationConfig.CAPTURE_RADIUS then
    let aggression := geneD p.genome "aggression_gene" 0.5
    let energy_gain := SimulationConfig.ENERGY_GAIN * (1 + 0.5 * aggression)
    (true, { p with energy := min 200 (p.energy + energy_gain) })
  else (false, p)

/-- agents.py `Glucose`. -/
structure Glucose where
  id : String
  x : ℝ
  y : ℝ
  size : ℝ
  energy : ℝ
  consumed : Bool

/-- agents.py `Glucose.consume(amount)`: returns the energy given and the
updated glucose. -/
noncomputable def Glucose.consume (g : Glucose) (amount : ℝ) : ℝ × Glucose :=
  if g.consumed then (0, g) else
  let energy_given := min amount g.energy
  let energy1 := g.energy - energy_given
  let size1 := max 2 (g.size * (energy1 / (g.size * 5)))
  if energy1 ≤ 0 then (energy_given, { g with energy := energy1, size := 0, consumed := true })
  else (energy_given, { g with energy := energy1, size := size1 })

/-- agents.py `Glucose.is_active`. -/
def Glucose.is_active (g : Glucose) : Prop :=
  g.consumed = false ∧ g.energy > 0

noncomputable instance Glucose.is_active.dec (g : Glucose) : Decidable g.is_active := by
  unfold Glucose.is_active; infer_instance

/-! ### genome.py and the repository GA operators -/

/-- models/genome.py `Genome`. -/
structure Genome where
  genes : List (String × ℝ)
  species : String

/-- models/genome.py `Genome.mutate(mutation_rate, mutation_strength)`.
`roll i` is the `random.random()` draw and `z i` the standard-normal draw for
gene `i` (the `np.random.normal(0, strength)` sample is `strength * z i`). -/
noncomputable def Genome.mutate (g : Genome) (roll z : ℕ → ℝ)
    (mutation_rate mutation_strength : ℝ) : Genome :=
  { genes := g.genes.enum.map fun q =>
      if roll q.1 < mutation_rate then
        (q.2.1, max 0 (min 1 (q.2.2 + mutation_strength * z q.1)))
      else (q.2.1, q.2.2),
    species := g.species }

/-- genetic_algorithm.py `_cx_uniform` body: iterate the keys of `ind1`,
swapping `ind1[key]` and `ind2[key]` with probability `indpb`.  A key of
`ind1` missing from `ind2` raises `KeyError` in Python, modelled as `none`. -/
noncomputable def cxGo (roll : ℕ → ℝ) (indpb : ℝ) :
    List String → List (String × ℝ) → List (String × ℝ) → ℕ →
    Option (List (String × ℝ) × List (String × ℝ))
  | [], m1, m2, _ => some (m1, m2)
  | k :: ks, m1, m2, i =>
    if roll i < indpb then
      match m1.lookup k, m2.lookup k with
      | some v1, some v2 => cxGo roll indpb ks (setGene m1 k v2) (setGene m2 k v1) (i + 1)
      | _, _ => none
    else cxGo roll indpb ks m1 m2 (i + 1)

/-- genetic_algorithm.py `GeneticAlgorithmDEAP._cx_uniform` (leading underscore
dropped). -/
noncomputable def cx_uniform (roll : ℕ → ℝ) (indpb : ℝ)
    (ind1 ind2 : List (String × ℝ)) :
    Option (List (String × ℝ) × List (String × ℝ)) :=
  cxGo roll indpb (ind1.map Prod.fst) ind1 ind2 0

/-- genetic_algorithm.py `GeneticAlgorithmDEAP._mutate_gaussian` (leading
underscore dropped); the `random.gauss(mu, sigma)` sample is `mu + sigma * z i`. -/
noncomputable def mutate_gaussian (roll z : ℕ → ℝ) (mu sigma indpb : ℝ)
    (individual : List (String × ℝ)) : List (String × ℝ) :=
  individual.enum.map fun q =>
    if roll q.1 < indpb then (q.2.1, max 0 (min 1 (q.2.2 + (mu + sigma * z q.1))))
    else (q.2.1, q.2.2)

/-! ### fitness.py -/

/-- fitness.py `calculate_color_distance(color1, color2)`. -/
noncomputable def calculate_color_distance (color1 color2 : ℤ × ℤ × ℤ) : ℝ :=
  Real.sqrt ((((color1.1 - color2.1 : ℤ) : ℝ) / 255) ^ 2 +
             (((color1.2.1 - color2.2.1 : ℤ) : ℝ) / 255) ^ 2 +
             (((color1.2.2 - color2.2.2 : ℤ) : ℝ) / 255) ^ 2) / Real.sqrt 3

/-- fitness.py `calculate_bacteria_fitness(bacteria, background_color)`. -/
noncomputable def calculate_bacteria_fitness (b : Bacteria)
    (background_color : ℤ × ℤ × ℤ) : ℝ :=
  let color_diff := calculate_color_distance b.color background_color
  let fitness0 := max 0 (1 - color_diff)
  0.7 * fitness0 + 0.3 * (b.energy / 200)

/-- Written from the spec's words for the C5 refinement comparison: "the
Euclidean distance in RGB space divided by √3·255". -/
noncomputable def specNormalizedRGBDistance (c1 c2 : ℤ × ℤ × ℤ) : ℝ :=
  Real.sqrt (((c1.1 - c2.1 : ℤ) : ℝ) ^ 2 +
             ((c1.2.1 - c2.2.1 : ℤ) : ℝ) ^ 2 +
             ((c1.2.2 - c2.2.2 : ℤ) : ℝ) ^ 2) / (Real.sqrt 3 * 255)

/-- Written from the spec's words for the C5 refinement comparison:
"fitness = 0.7·(1 − normalized_RGB_distance(color, background)) +
0.3·(energy/200), clamped ≥ 0". -/
noncomputable def specBacteriaFitness (b : Bacteria) (bg : ℤ × ℤ × ℤ) : ℝ :=
  max 0 (0.7 * (1 - specNormalizedRGBDistance b.color bg) + 0.3 * (b.energy / 200))

/-! ### simulation.py -/

/-- The statistics ledger entries consumed inside `step()`.  The fitness,
vulnerability and population history ledgers feed no claim and are elided.
`glucose_consumed` is `Option` because `reset()` rebuilds the stats dict
without that key (while `__post_init__` includes it), so the
`self.stats['glucose_consumed'] += 1` line in `process_interactions` can
raise `KeyError` after a reset — modelled by the `none` case. -/
structure Stats where
  total_captures : ℕ
  total_reproductions : ℕ
  glucose_consumed : Option ℕ
  asexual_reproduction_count : ℕ
  generation_times : List ℝ

/-- simulation.py `Simulation`.  The third-party DEAP `GeneticAlgorithmDEAP`
instance is external-library state; its `evolve_population` behaviour enters
through the oracle (`Oracle.gaEvolve`). -/
structure Simulation where
  canvas_width : ℝ
  canvas_height : ℝ
  background_color : ℤ × ℤ × ℤ
  bacteria : List Bacteria
  phagocytes : List Phagocyte
  glucose : List Glucose
  generation : ℕ
  is_paused : Bool
  is_stopped : Bool
  bacteria_rankings : List Bacteria
  last_ranking_update : ℕ
  ranking_update_frequency : ℕ
  stats : Stats

/-- All random draws consumed by one `Simulation.step` call, plus the
external-library DEAP evolution function. -/
structure Oracle where
  bactJit : ℕ → ℝ × ℝ
  phagJit : ℕ → ℝ × ℝ
  spawnRoll : ℝ
  newGlucose : Glucose
  repro : ℕ → ReproOracle
  gaEvolve : List Bacteria → List Phagocyte → List Bacteria × List Phagocyte
  reposB : ℕ → ℝ × ℝ
  reposP : ℕ → ℝ × ℝ
  genTime : ℝ

/-- simulation.py `Simulation.update_bacteria_rankings`: score the live
bacteria, sort by vulnerability descending (Python's stable `sort` with
`reverse=True`, i.e. stable insertion sort on the flipped key), cache the
bacteria and record the generation.  (The `ranking_stats` history ledger is
elided.)  In the typed model every list element is a `Bacteria`, so the
`isinstance`/`hasattr` guards are identically true and the per-bacterium
`try` never fires. -/
noncomputable def Simulation.update_bacteria_rankings (s : Simulation) : Simulation :=
  let vulnerability_scores := s.bacteria.filterMap fun b =>
    if b.is_alive then some (b.get_vulnerability_score s.background_color, b) else none
  let sorted := List.insertionSort (fun p q : ℝ × Bacteria => q.1 ≤ p.1) vulnerability_scores
  { s with
    bacteria_rankings := sorted.map Prod.snd,
    last_ranking_update := s.generation }

/-- simulation.py `Simulation.get_ranked_bacteria_in_range(phagocyte,
max_distance=None)`: lazily refresh the ranking cache, filter it to live,
in-range, detectable bacteria, and re-sort by ascending distance (Python's
stable `sort(key=lambda x: x[0])`, modelled by stable insertion sort on the
same key).  Returns the list and the (possibly recomputed) simulation. -/
noncomputable def Simulation.get_ranked_bacteria_in_range (s : Simulation)
    (phagocyte : Phagocyte) (max_distance : Option ℝ) : List Bacteria × Simulation :=
  let md := max_distance.getD SimulationConfig.DETECTION_RADIUS
  let s1 :=
    if (s.generation : ℤ) - (s.last_ranking_update : ℤ) ≥ (s.ranking_update_frequency : ℤ)
    then s.update_bacteria_rankings else s
  let ranked_in_range := s1.bacteria_rankings.filterMap fun b =>
    if b.is_alive then
      let dist := Real.sqrt ((b.x - phagocyte.x) ^ 2 + (b.y - phagocyte.y) ^ 2)
      if dist < md ∧ phagocyte.detect_bacteria b s1.background_color then
        some (dist, b)
      else none
    else none
  let sorted := List.insertionSort (fun p q : ℝ × Bacteria => p.1 ≤ q.1) ranked_in_range
  (sorted.map Prod.snd, s1)

/-- agents.py `Phagocyte.find_target_bacteria(simulation)`: first entry of the
ranked in-range list, or `None` when it is empty. -/
noncomputable def Phagocyte.find_target_bacteria (p : Phagocyte) (s : Simulation) :
    Option Bacteria × Simulation :=
  let r := s.get_ranked_bacteria_in_range p none
  (r.1.head?, r.2)

/-- agents.py `Phagocyte.move(canvas_width, canvas_height, simulation)` on the
orchestrator path (`simulation` is always passed and `find_target_bacteria`
always exists): chase the ranked target if any, otherwise base random move. -/
noncomputable def Phagocyte.move (p : Phagocyte) (canvas_width canvas_height : ℝ)
    (s : Simulation) (jx jy : ℝ) : Phagocyte × Simulation :=
  let t := p.find_target_bacteria s
  match t.1 with
  | some target => (p.chase_bacteria target, t.2)
  | none => (⟨p.toAgent.move canvas_width canvas_height jx jy⟩, t.2)

/-- Inner loop of simulation.py `Simulation.move_agents` over the phagocytes,
threading the simulation (a phagocyte's targeting query may refresh the
ranking cache seen by the next phagocyte). -/
noncomputable def movePhagocytes (canvas_width canvas_height : ℝ) (jit : ℕ → ℝ × ℝ) :
    List Phagocyte → ℕ → Simulation → List Phagocyte × Simulation
  | [], _, s => ([], s)
  | p :: ps, i, s =>
    if p.is_alive then
      let r := p.move canvas_width canvas_height s (jit i).1 (jit i).2
      let rest := movePhagocytes canvas_width canvas_height jit ps (i + 1) r.2
      (r.1 :: rest.1, rest.2)
    else
      let rest := movePhagocytes canvas_width canvas_height jit ps (i + 1) s
      (p :: rest.1, rest.2)

/-- simulation.py `Simulation.move_agents`: move the live bacteria, then the
live phagocytes (which see the already-moved bacteria through `self`). -/
noncomputable def Simulation.move_agents (o : Oracle) (s : Simulation) : Simulation :=
  let bs := s.bacteria.enum.map fun q =>
    if q.2.is_alive then
      q.2.move s.canvas_width s.canvas_height (o.bactJit q.1).1 (o.bactJit q.1).2
    else q.2
  let s1 := { s with bacteria := bs }
  let r := movePhagocytes s1.canvas_width s1.canvas_height o.phagJit s1.phagocytes 0 s1
  { r.2 with phagocytes := r.1 }

/-- simulation.py `Simulation.update_reproduction_cooldowns`. -/
def Simulation.update_reproduction_cooldowns (s : Simulation) : Simulation :=
  { s with bacteria := s.bacteria.map Bacteria.update_reproduction_cooldown }

/-- One phagocyte's capture pass over the current bacteria list (simulation.py
`process_interactions`, first loop body): each live bacterium within the
capture radius is captured and removed; the phagocyte's energy accumulates
across captures.  Returns (updated phagocyte, surviving bacteria, captures). -/
noncomputable def captureScan (p : Phagocyte) : List Bacteria → Phagocyte × List Bacteria × ℕ
  | [] => (p, [], 0)
  | b :: bs =>
    if b.is_alive then
      let r := p.capture_bacteria b
      if r.1 then
        let rest := captureScan r.2 bs
        (rest.1, rest.2.1, rest.2.2 + 1)
      else
        let rest := captureScan r.2 bs
        (rest.1, b :: rest.2.1, rest.2.2)
    else
      let rest := captureScan p bs
      (rest.1, b :: rest.2.1, rest.2.2)

/-- simulation.py `process_interactions` capture phase over all phagocytes. -/
noncomputable def capturesLoop : List Phagocyte → List Bacteria →
    List Phagocyte × List Bacteria × ℕ
  | [], bs => ([], bs, 0)
  | p :: ps, bs =>
    if p.is_alive then
      let r := captureScan p bs
      let rest := capturesLoop ps r.2.1
      (r.1 :: rest.1, rest.2.1, r.2.2 + rest.2.2)
    else
      let rest := capturesLoop ps bs
      (p :: rest.1, rest.2.1, rest.2.2)

/-- Find the first active glucose within the consumption radius of `b`
(simulation.py `process_interactions`, glucose loop): returns the glucose
split out of the list, or `none`. -/
noncomputable def findGlucose (b : Bacteria) : List Glucose →
    Option (List Glucose × Glucose × List Glucose)
  | [] => none
  | g :: gs =>
    if g.is_active ∧
        Real.sqrt ((b.x - g.x) ^ 2 + (b.y - g.y) ^ 2) <
          SimulationConfig.AGENT_SIZE + g.size / 2 then
      some ([], g, gs)
    else
      (findGlucose b gs).map fun r => (g :: r.1, r.2.1, r.2.2)

/-- simulation.py `process_interactions` feeding phase: each live bacterium
consumes at most one glucose (first found wins).  The
`self.stats['glucose_consumed'] += 1` line raises `KeyError` when the key is
absent (after `reset()`); at that point the bacterium's energy gain and the
glucose's consumption have already happened but the fully-consumed glucose
has not been removed — the returned flag marks the raised exception. -/
noncomputable def feedLoop : List Bacteria → List Glucose → Option ℕ →
    List Bacteria × List Glucose × Option ℕ × Bool
  | [], gs, st => ([], gs, st, false)
  | b :: bs, gs, st =>
    if b.is_alive then
      match findGlucose b gs with
      | none =>
        let rest := feedLoop bs gs st
        (b :: rest.1, rest.2.1, rest.2.2.1, rest.2.2.2)
      | some r =>
        let c := r.2.1.consume SimulationConfig.BACTERIA_GLUCOSE_CONSUMPTION_RATE
        let b1 := { b with energy := min 200 (b.energy + c.1) }
        match st with
        | none => (b1 :: bs, r.1 ++ c.2 :: r.2.2, none, true)
        | some n =>
          let gs1 := if c.2.is_active then r.1 ++ c.2 :: r.2.2 else r.1 ++ r.2.2
          let rest := feedLoop bs gs1 (some (n + 1))
          (b1 :: rest.1, rest.2.1, rest.2.2.1, rest.2.2.2)
    else
      let rest := feedLoop bs gs st
      (b :: rest.1, rest.2.1, rest.2.2.1, rest.2.2.2)

/-- simulation.py `Simulation.process_interactions`.  The returned flag is
true when the glucose-statistics `KeyError` escaped (the only uncaught
exception in this stage: each capture attempt is individually wrapped in
`try`, and in the typed model `capture_bacteria` is total).  On the error
path, `self.stats['total_captures'] += captures` is never reached. -/
noncomputable def Simulation.process_interactions (s : Simulation) : Simulation × Bool :=
  let cap := capturesLoop s.phagocytes s.bacteria
  let feed := feedLoop cap.2.1 s.glucose s.stats.glucose_consumed
  if feed.2.2.2 then
    ({ s with
       phagocytes := cap.1, bacteria := feed.1, glucose := feed.2.1,
       stats := { s.stats with glucose_consumed := feed.2.2.1 } }, true)
  else
    ({ s with
       phagocytes := cap.1, bacteria := feed.1, glucose := feed.2.1,
       stats := { s.stats with
                  glucose_consumed := feed.2.2.1,
                  total_captures := s.stats.total_captures + cap.2.2 } }, false)

/-- simulation.py `Simulation.manage_glucose`: drop inactive glucose, then
spawn one new glucose with probability `GLUCOSE_SPAWN_RATE` while under the
thresholds (`o.spawnRoll` is the `random.random()` draw). -/
noncomputable def Simulation.manage_glucose (o : Oracle) (s : Simulation) : Simulation :=
  let active := s.glucose.filter fun g => decide g.is_active
  if active.length < SimulationConfig.GLUCOSE_RESPAWN_THRESHOLD ∧
      o.spawnRoll < SimulationConfig.GLUCOSE_SPAWN_RATE ∧
      active.length < SimulationConfig.MAX_GLUCOSE_COUNT then
    { s with glucose := active ++ [o.newGlucose] }
  else { s with glucose := active }

/-- simulation.py `Simulation.calculate_fitness`: bacteria first, then
phagocytes against the already-updated bacteria list.  In the typed model the
per-agent computations are total, so the per-agent `try` fallbacks
(`fitness = 0.5`) are dead. -/
noncomputable def Simulation.calculate_fitness (s : Simulation) : Simulation :=
  let bs := s.bacteria.map fun b => b.calculate_fitness s.background_color
  let ps := s.phagocytes.map fun p => p.calculate_fitness s.background_color bs
  { s with bacteria := bs, phagocytes := ps }

/-- simulation.py `Simulation.asexual_reproduction` loop over a snapshot of
the bacteria list: returns (updated parents, children in encounter order,
child count). -/
noncomputable def reproLoop (o : ℕ → ReproOracle) :
    List Bacteria → ℕ → List Bacteria × List Bacteria × ℕ
  | [], _ => ([], [], 0)
  | b :: bs, i =>
    if b.is_alive ∧ b.can_reproduce_asexually then
      let r := b.reproduce_asexually (o i)
      let rest := reproLoop o bs (i + 1)
      match r.2 with
      | some child => (r.1 :: rest.1, child :: rest.2.1, rest.2.2 + 1)
      | none => (r.1 :: rest.1, rest.2.1, rest.2.2)
    else
      let rest := reproLoop o bs (i + 1)
      (b :: rest.1, rest.2.1, rest.2.2)

/-- simulation.py `Simulation.asexual_reproduction` (the per-reproduction
history ledger is elided; `total_reproductions` and
`asexual_reproduction_count` are updated as in the source). -/
noncomputable def Simulation.asexual_reproduction (o : Oracle) (s : Simulation) :
    Simulation :=
  let r := reproLoop o.repro s.bacteria 0
  { s with
    bacteria := r.1 ++ r.2.1,
    stats := { s.stats with
               total_reproductions := s.stats.total_reproductions + r.2.2,
               asexual_reproduction_count := s.stats.asexual_reproduction_count + r.2.2 } }

/-- simulation.py `Simulation.coevolution_step`: evolve both populations via
the external DEAP toolkit (oracle), then reposition every new agent randomly
and reset energy to 100 and age to 0. -/
noncomputable def Simulation.coevolution_step (o : Oracle) (s : Simulation) : Simulation :=
  let r := o.gaEvolve s.bacteria s.phagocytes
  let bs := r.1.enum.map fun q =>
    { q.2 with x := (o.reposB q.1).1, y := (o.reposB q.1).2, energy := 100, age := 0 }
  let ps := r.2.enum.map fun q =>
    { q.2 with x := (o.reposP q.1).1, y := (o.reposP q.1).2, energy := 100, age := 0 }
  { s with bacteria := bs, phagocytes := ps }

/-- simulation.py `Simulation.clean_dead_agents`. -/
noncomputable def Simulation.clean_dead_agents (s : Simulation) : Simulation :=
  { s with
    bacteria := s.bacteria.filter fun b => decide b.is_alive,
    phagocytes := s.phagocytes.filter fun p => decide p.is_alive }

/-- simulation.py `Simulation.clean_incorrect_agents`: the `isinstance`
filters are identities in the typed model. -/
def Simulation.clean_incorrect_agents (s : Simulation) : Simulation := s

/-- simulation.py `Simulation.update_statistics(start_time)`: only the
generation-timing ledger is modelled (`o.genTime` is the measured duration);
the fitness/vulnerability/population history ledgers feed no claim and are
elided.  All keys this stage reads exist both after `__post_init__` and after
`reset()`, so it raises nothing. -/
noncomputable def Simulation.update_statistics (o : Oracle) (s : Simulation) : Simulation :=
  let times0 := s.stats.generation_times ++ [o.genTime]
  let times1 := if times0.length > 100 then times0.drop 1 else times0
  { s with stats := { s.stats with generation_times := times1 } }

/-- simulation.py `Simulation.control_population_size`: cull each population
down to its cap, keeping the fittest (stable descending sort by fitness, then
truncate).  Sorting floats cannot fail in the model, so the
`random.sample` fallback of the source's `except` arm is dead code here. -/
noncomputable def Simulation.control_population_size (s : Simulation) : Simulation :=
  let max_pop := SimulationConfig.MAX_POPULATION
  let bs :=
    if s.bacteria.length > max_pop then
      (List.insertionSort (fun a b : Bacteria => b.fitness ≤ a.fitness) s.bacteria).take
        max_pop
    else s.bacteria
  let ps :=
    if s.phagocytes.length > max_pop / 2 then
      (List.insertionSort (fun a b : Phagocyte => b.fitness ≤ a.fitness) s.phagocytes).take
        (max_pop / 2)
    else s.phagocytes
  { s with bacteria := bs, phagocytes := ps }

/-- simulation.py `Simulation.step`: no-op under paused/stopped; otherwise
increment the generation counter, then run the pipeline inside `try`.  In
this model the only stage that can raise up to the `step()` boundary is
`process_interactions` (the `KeyError` described at `feedLoop`): every other
stage wraps its fallible operations in local `try` blocks or is total here.
When the exception fires, the effects of the stages already executed are
kept and the remaining stages are skipped. -/
noncomputable def Simulation.step (o : Oracle) (s : Simulation) : Simulation :=
  if s.is_paused || s.is_stopped then s else
  let s0 := { s with generation := s.generation + 1 }
  let s1 := s0.move_agents o
  let s2 := s1.update_reproduction_cooldowns
  let pi := s2.process_interactions
  if pi.2 then pi.1 else
  let s4 := pi.1.manage_glucose o
  let s5 := s4.calculate_fitness
  let s6 := s5.asexual_reproduction o
  let s7 :=
    if s6.generation % SimulationConfig.GENERATIONS_PER_EPOCH = 0 then
      s6.coevolution_step o
    else s6
  let s8 := s7.clean_dead_agents
  let s9 := s8.clean_incorrect_agents
  let s10 := s9.update_statistics o
  s10.control_population_size

/-- simulation.py `Simulation.pause`. -/
def Simulation.pause (s : Simulation) : Simulation := { s with is_paused := true }

/-- simulation.py `Simulation.resume`. -/
def Simulation.resume (s : Simulation) : Simulation := { s with is_paused := false }

/-- simulation.py `Simulation.stop`. -/
def Simulation.stop (s : Simulation) : Simulation :=
  { s with is_stopped := true, is_paused := true }

/-! ### Predicates used by the theorem statements -/

/-- A valid RGB colour: every component in [0, 255]. -/
def validRGB (c : ℤ × ℤ × ℤ) : Prop :=
  0 ≤ c.1 ∧ c.1 ≤ 255 ∧ 0 ≤ c.2.1 ∧ c.2.1 ≤ 255 ∧ 0 ≤ c.2.2 ∧ c.2.2 ≤ 255

/-- Every gene value of the dict lies in [0, 1]. -/
def vals01 (m : List (String × ℝ)) : Prop :=
  ∀ q ∈ m, 0 ≤ q.2 ∧ q.2 ≤ 1

/-- The phagocyte–bacterium Euclidean distance computed throughout agents.py
and simulation.py (`math.sqrt(dx**2 + dy**2)`). -/
noncomputable def phagDist (p : Phagocyte) (b : Bacteria) : ℝ :=
  Real.sqrt ((b.x - p.x) ^ 2 + (b.y - p.y) ^ 2)

/-! ### Concrete fixtures for witnesses and counterexamples -/

/-- A bacterium eligible for asexual reproduction (energy 150, cooldown 0). -/
noncomputable def bactC4 : Bacteria :=
  { id := "b4", species := "bacteria", x := 100, y := 100,
    genome := [("color_gene", 0.5)], color := (150, 150, 150),
    fitness := 0, energy := 150, age := 0, vx := 1, vy := 0,
    length_gene := 0.5, width_gene := 0.5, reproduction_cooldown := 0,
    offspring_count := 0, parent_id := none, direction := 0 }

/-- A white bacterium at (3, 4) with full energy (zero stored fitness). -/
noncomputable def bactWhiteA : Bacteria :=
  { id := "bA", species := "bacteria", x := 3, y := 4,
    genome := [("color_gene", 0.5)], color := (255, 255, 255),
    fitness := 0, energy := 200, age := 0, vx := 1, vy := 0,
    length_gene := 0.5, width_gene := 0.5, reproduction_cooldown := 0,
    offspring_count := 0, parent_id := none, direction := 0 }

/-- A white bacterium at (6, 8) with half energy (zero stored fitness). -/
noncomputable def bactWhiteB : Bacteria :=
  { id := "bB", species := "bacteria", x := 6, y := 8,
    genome := [("color_gene", 0.5)], color := (255, 255, 255),
    fitness := 0, energy := 100, age := 0, vx := 1, vy := 0,
    length_gene := 0.5, width_gene := 0.5, reproduction_cooldown := 0,
    offspring_count := 0, parent_id := none, direction := 0 }

/-- A white bacterium at (3.5, 4.5) (chase target for the C3 counterexample). -/
noncomputable def bactChase : Bacteria :=
  { id := "bC", species := "bacteria", x := 3.5, y := 4.5,
    genome := [("color_gene", 0.5)], color := (255, 255, 255),
    fitness := 0, energy := 100, age := 0, vx := 1, vy := 0,
    length_gene := 0.5, width_gene := 0.5, reproduction_cooldown := 0,
    offspring_count := 0, parent_id := none, direction := 0 }

/-- A maximally sensitive/aggressive/fast phagocyte at the origin. -/
noncomputable def phagHunter : Phagocyte :=
  { id := "p0", species := "phagocyte", x := 0, y := 0,
    genome := [("sensitivity_gene", 1), ("speed_gene", 1),
               ("vision_gene", 1), ("aggression_gene", 1)],
    color := (255, 200, 100), fitness := 0, energy := 100, age := 0,
    vx := 0.6, vy := 0.8 }

/-- The same phagocyte placed at (0.5, 0.5), close to the left wall. -/
noncomputable def phagChaser : Phagocyte :=
  { id := "p1", species := "phagocyte", x := 0.5, y := 0.5,
    genome := [("sensitivity_gene", 1), ("speed_gene", 1),
               ("vision_gene", 1), ("aggression_gene", 1)],
    color := (255, 200, 100), fitness := 0, energy := 100, age := 0,
    vx := 0.6, vy := 0.8 }

/-- A glucose pellet at (102, 100). -/
noncomputable def glucoseC2 : Glucose :=
  { id := "g0", x := 102, y := 100, size := 10, energy := 50, consumed := false }

/-- Stats as produced by `__post_init__` (all counters present). -/
def statsInit : Stats :=
  { total_captures := 0, total_reproductions := 0, glucose_consumed := some 0,
    asexual_reproduction_count := 0, generation_times := [] }

/-- Stats as produced by `reset()`: the `glucose_consumed` key is absent. -/
def statsReset : Stats :=
  { total_captures := 0, total_reproductions := 0, glucose_consumed := none,
    asexual_reproduction_count := 0, generation_times := [] }

/-- A fixed reproduction oracle (no mutations fire: every roll is 1). -/
noncomputable def oRepro : ReproOracle :=
  { mutRoll := fun _ => 1, gauss := fun _ => 0, colorRoll := fun _ => 0,
    newGeneRoll := 1, newGeneIdx := 1, newGeneVal := 0, angle := 0,
    childId := "child0",
    childInit := { vx := 1, vy := 0, dir := 0, defColorGene := 0.5,
                   defLen := 0.5, defWid := 0.5 },
    dirDelta := 0 }

/-- A fixed step oracle: zero jitter, no glucose spawn, identity GA. -/
noncomputable def oracle0 : Oracle :=
  { bactJit := fun _ => (0, 0), phagJit := fun _ => (0, 0), spawnRoll := 1,
    newGlucose := glucoseC2, repro := fun _ => oRepro,
    gaEvolve := fun bs ps => (bs, ps), reposB := fun _ => (0, 0),
    reposP := fun _ => (0, 0), genTime := 0 }

/-- Simulation state for the C1 counterexample: black background, ranking
cache [bactWhiteB, bactWhiteA] (descending vulnerability), fresh cache. -/
noncomputable def simC1 : Simulation :=
  { canvas_width := 800, canvas_height := 600, background_color := (0, 0, 0),
    bacteria := [bactWhiteA, bactWhiteB], phagocytes := [phagHunter],
    glucose := [], generation := 0, is_paused := false, is_stopped := false,
    bacteria_rankings := [bactWhiteB, bactWhiteA], last_ranking_update := 0,
    ranking_update_frequency := 5, stats := statsInit }

/-- Simulation state for the C10 witness: one phagocyte, one bacterium within
capture radius, no glucose, fresh ranking cache containing the bacterium. -/
noncomputable def simC10 : Simulation :=
  { canvas_width := 800, canvas_height := 600, background_color := (0, 0, 0),
    bacteria := [bactWhiteA], phagocytes := [phagHunter],
    glucose := [], generation := 0, is_paused := false, is_stopped := false,
    bacteria_rankings := [bactWhiteA], last_ranking_update := 0,
    ranking_update_frequency := 5, stats := statsInit }

/-- Simulation state for the C3 counterexample: the chaser phagocyte and its
cached target. -/
noncomputable def simC3 : Simulation :=
  { canvas_width := 800, canvas_height := 600, background_color := (0, 0, 0),
    bacteria := [bactChase], phagocytes := [phagChaser],
    glucose := [], generation := 0, is_paused := false, is_stopped := false,
    bacteria_rankings := [bactChase], last_ranking_update := 0,
    ranking_update_frequency := 5, stats := statsInit }

/-- Simulation state for the C2 counterexample: running, post-`reset()` stats
(no `glucose_consumed` key), one bacterium one step away from a glucose
pellet, no phagocytes. -/
noncomputable def simC2 : Simulation :=
  { canvas_width := 800, canvas_height := 600, background_color := (240, 240, 240),
    bacteria := [bactC4], phagocytes := [], glucose := [glucoseC2],
    generation := 0, is_paused := false, is_stopped := false,
    bacteria_rankings := [], last_ranking_update := 0,
    ranking_update_frequency := 5, stats := statsReset }

/-- Simulation state for the C8 witness: 201 bacteria (over the cap of 200). -/
noncomputable def simC8 : Simulation :=
  { canvas_width := 800, canvas_height := 600, background_color := (240, 240, 240),
    bacteria := List.replicate 201 bactC4, phagocytes := [], glucose := [],
    generation := 0, is_paused := false, is_stopped := false,
    bacteria_rankings := [], last_ranking_update := 0,
    ranking_update_frequency := 5, stats := statsInit }

/-- Generation counter and pause/stop flags agree. -/
def sameFlags (t s : Simulation) : Prop :=
  t.generation = s.generation ∧ t.is_paused = s.is_paused ∧ t.is_stopped = s.is_stopped

/-- `bactC4` after one jitter-free base move on the 800×600 canvas. -/
noncomputable def bactC4m : Bacteria :=
  { bactC4 with x := 102, y := 100, age := 1, energy := 149 }

/-! ### General helper lemmas -/

theorem sqrt_eval {x a : ℝ} (ha : 0 ≤ a) (h : x = a ^ 2) : Real.sqrt x = a := by
  rw [h, Real.sqrt_sq ha]

theorem clamp01_mem (x : ℝ) : 0 ≤ max 0 (min 1 x) ∧ max 0 (min 1 x) ≤ 1 :=
  ⟨le_max_left _ _, max_le zero_le_one (min_le_left _ _)⟩

theorem normalize_velocity_normSq {vx vy : ℝ} (h : vx ^ 2 + vy ^ 2 ≠ 0) :
    (normalize_velocity vx vy).1 ^ 2 + (normalize_velocity vx vy).2 ^ 2 = 1 := by
  have hpos : 0 < vx ^ 2 + vy ^ 2 := (by positivity : (0:ℝ) ≤ _).lt_of_ne (Ne.symm h)
  have hs : 0 < Real.sqrt (vx ^ 2 + vy ^ 2) := Real.sqrt_pos.mpr hpos
  have h2 : Real.sqrt (vx ^ 2 + vy ^ 2) ^ 2 = vx ^ 2 + vy ^ 2 := Real.sq_sqrt hpos.le
  unfold normalize_velocity
  dsimp only
  rw [if_pos hs]
  rw [div_pow, div_pow, div_add_div_same, h2, div_self h]

/-- The head of a stable sort by a real key is the first element of the input
attaining the minimal key: it is a global key-minimum and every element
preceding it in the input has a strictly larger key. -/
theorem insertionSort_cons_first_min {α : Type} (k : α → ℝ) :
    ∀ (a : α) (l : List α),
      ∃ h0 rest pre suf,
        List.insertionSort (fun x y => k x ≤ k y) (a :: l) = h0 :: rest ∧
        a :: l = pre ++ h0 :: suf ∧
        (∀ c ∈ a :: l, k h0 ≤ k c) ∧
        (∀ c ∈ pre, k h0 < k c) := by
  intro a l
  induction l generalizing a with
  | nil =>
    refine ⟨a, [], [], [], ?_, by simp, ?_, by simp⟩
    · simp [List.insertionSort, List.orderedInsert]
    · intro c hc
      rcases List.mem_cons.mp hc with rfl | hc
      · exact le_refl _
      · simp at hc
  | cons b t ih =>
    obtain ⟨h0, rest, pre, suf, hsort, hdecomp, hmin, hpre⟩ := ih b
    by_cases hab : k a ≤ k h0
    · refine ⟨a, h0 :: rest, [], b :: t, ?_, by simp, ?_, by simp⟩
      · show List.orderedInsert (fun x y => k x ≤ k y) a
          (List.insertionSort (fun x y => k x ≤ k y) (b :: t)) = _
        rw [hsort, List.orderedInsert, if_pos hab]
      · intro c hc
        rcases List.mem_cons.mp hc with rfl | hc
        · exact le_refl _
        · exact hab.trans (hmin c hc)
    · have hlt : k h0 < k a := not_le.mp hab
      refine ⟨h0, List.orderedInsert (fun x y => k x ≤ k y) a rest, a :: pre, suf,
        ?_, ?_, ?_, ?_⟩
      · show List.orderedInsert (fun x y => k x ≤ k y) a
          (List.insertionSort (fun x y => k x ≤ k y) (b :: t)) = _
        rw [hsort, List.orderedInsert, if_neg hab]
      · rw [List.cons_append, hdecomp]
      · intro c hc
        rcases List.mem_cons.mp hc with rfl | hc
        · exact hlt.le
        · exact hmin c hc
      · intro c hc
        rcases List.mem_cons.mp hc with rfl | hc
        · exact hlt
        · exact hpre c hc

theorem enum_snd_mem {α : Type} {l : List α} {q : ℕ × α} (h : q ∈ l.enum) : q.2 ∈ l := by
  have he := List.enum_map_snd l
  exact he ▸ List.mem_map_of_mem Prod.snd h

theorem lookup_vals01 {m : List (String × ℝ)} (hm : vals01 m) {k : String} {v : ℝ}
    (h : m.lookup k = some v) : 0 ≤ v ∧ v ≤ 1 := by
  induction m with
  | nil => simp [List.lookup] at h
  | cons q rest ih =>
    obtain ⟨k0, v0⟩ := q
    have htail : vals01 rest := fun q hq => hm q (List.mem_cons_of_mem _ hq)
    simp only [List.lookup] at h
    cases hbe : (k == k0) with
    | true => 
      rw [hbe] at h
      simp at h
      exact h ▸ hm (k0, v0) (List.mem_cons_self _ _)
    | false =>
      rw [hbe] at h
      simp at h
      exact ih htail h

theorem setGene_vals01 {m : List (String × ℝ)} (hm : vals01 m) {k : String} {v : ℝ}
    (hv : 0 ≤ v ∧ v ≤ 1) : vals01 (setGene m k v) := by
  induction m with
  | nil =>
    intro q hq
    simp [setGene] at hq
    rw [hq]
    exact hv
  | cons q0 rest ih =>
    obtain ⟨k0, v0⟩ := q0
    have htail : vals01 rest := fun q hq => hm q (List.mem_cons_of_mem _ hq)
    intro q hq
    rw [setGene] at hq
    split at hq
    · rcases List.mem_cons.mp hq with rfl | hq
      · exact hv
      · exact htail q hq
    · rcases List.mem_cons.mp hq with rfl | hq
      · exact hm (k0, v0) (List.mem_cons_self _ _)
      · exact ih htail q hq

/-! ### C4 -/

/-- C4: a bacterium with energy below the reproduction threshold or a positive
cooldown gets no child from `reproduce_asexually` and is left unchanged; a
bacterium with energy ≥ threshold, cooldown 0 and alive gets a child, its
cooldown becomes exactly the configured cooldown, its energy drops by exactly
the configured cost, its offspring count increments, and the child's energy
is half the reproduction cost. -/
theorem C4_reproduce_asexually_contract (b : Bacteria) (o : ReproOracle) :
    ((b.energy < SimulationConfig.BACTERIA_REPRODUCTION_ENERGY_THRESHOLD ∨
        0 < b.reproduction_cooldown) →
      b.reproduce_asexually o = (b, none)) ∧
    (b.energy ≥ SimulationConfig.BACTERIA_REPRODUCTION_ENERGY_THRESHOLD →
      b.reproduction_cooldown = 0 → b.is_alive →
      ∃ child,
        (b.reproduce_asexually o).2 = some child ∧
        (b.reproduce_asexually o).1.reproduction_cooldown =
          SimulationConfig.BACTERIA_REPRODUCTION_COOLDOWN ∧
        (b.reproduce_asexually o).1.energy =
          b.energy - SimulationConfig.BACTERIA_REPRODUCTION_ENERGY_COST ∧
        (b.reproduce_asexually o).1.offspring_count = b.offspring_count + 1 ∧
        child.energy = SimulationConfig.BACTERIA_REPRODUCTION_ENERGY_COST * 0.5) := by
  constructor
  · intro hfail
    have hnot : ¬ b.can_reproduce_asexually := by
      intro ⟨h1, h2, h3⟩
      rcases hfail with hf | hf
      · exact absurd h1 (not_le.mpr hf)
      · omega
    rw [Bacteria.reproduce_asexually, if_pos hnot]
  · intro h1 h2 h3
    have hcan : b.can_reproduce_asexually := ⟨h1, by omega, h3⟩
    rw [Bacteria.reproduce_asexually, if_neg (not_not_intro hcan)]
    exact ⟨_, rfl, rfl, rfl, rfl, rfl⟩

/-- Witness for C4 at a concrete bacterium (energy 150, cooldown 0). -/
theorem C4_reproduce_asexually_contract_witness :
    bactC4.energy ≥ SimulationConfig.BACTERIA_REPRODUCTION_ENERGY_THRESHOLD ∧
    bactC4.reproduction_cooldown = 0 ∧ bactC4.is_alive ∧
    ∃ child,
      (bactC4.reproduce_asexually oRepro).2 = some child ∧
      (bactC4.reproduce_asexually oRepro).1.reproduction_cooldown =
        SimulationConfig.BACTERIA_REPRODUCTION_COOLDOWN ∧
      (bactC4.reproduce_asexually oRepro).1.energy =
        bactC4.energy - SimulationConfig.BACTERIA_REPRODUCTION_ENERGY_COST ∧
      (bactC4.reproduce_asexually oRepro).1.offspring_count =
        bactC4.offspring_count + 1 ∧
      child.energy = SimulationConfig.BACTERIA_REPRODUCTION_ENERGY_COST * 0.5 := by
  have halive : bactC4.is_alive := by
    constructor
    · norm_num [bactC4]
    · norm_num [bactC4]
  refine ⟨?_, rfl, halive, ?_⟩
  · norm_num [bactC4, SimulationConfig.BACTERIA_REPRODUCTION_ENERGY_THRESHOLD]
  · exact (C4_reproduce_asexually_contract bactC4 oRepro).2
      (by norm_num [bactC4, SimulationConfig.BACTERIA_REPRODUCTION_ENERGY_THRESHOLD])
      rfl halive

/-! ### C5 -/

/-- C5: for a bacterium and background with valid RGB colours and non-negative
energy, `calculate_fitness` stores exactly
0.7·(1 − normalized_RGB_distance) + 0.3·(energy/200) clamped ≥ 0 (the spec's
formula `specBacteriaFitness`); the code's normalized distance equals the
spec's Euclidean-distance-over-√3·255 and lies in [0, 1]; and fitness.py's
`calculate_bacteria_fitness` computes the same value. -/
theorem C5_calculate_fitness_formula (b : Bacteria) (bg : ℤ × ℤ × ℤ)
    (hc : validRGB b.color) (hbg : validRGB bg) (he : 0 ≤ b.energy) :
    calculate_color_distance b.color bg = specNormalizedRGBDistance b.color bg ∧
    0 ≤ calculate_color_distance b.color bg ∧
    calculate_color_distance b.color bg ≤ 1 ∧
    (b.calculate_fitness bg).fitness = specBacteriaFitness b bg ∧
    calculate_bacteria_fitness b bg = (b.calculate_fitness bg).fitness := by
  obtain ⟨h1a, h1b, h2a, h2b, h3a, h3b⟩ := hc
  obtain ⟨g1a, g1b, g2a, g2b, g3a, g3b⟩ := hbg
  have d1l : (-255:ℝ) ≤ ((b.color.1 - bg.1 : ℤ) : ℝ) := by
    exact_mod_cast (by omega : (-255:ℤ) ≤ b.color.1 - bg.1)
  have d1u : ((b.color.1 - bg.1 : ℤ) : ℝ) ≤ 255 := by
    exact_mod_cast (by omega : b.color.1 - bg.1 ≤ (255:ℤ))
  have d2l : (-255:ℝ) ≤ ((b.color.2.1 - bg.2.1 : ℤ) : ℝ) := by
    exact_mod_cast (by omega : (-255:ℤ) ≤ b.color.2.1 - bg.2.1)
  have d2u : ((b.color.2.1 - bg.2.1 : ℤ) : ℝ) ≤ 255 := by
    exact_mod_cast (by omega : b.color.2.1 - bg.2.1 ≤ (255:ℤ))
  have d3l : (-255:ℝ) ≤ ((b.color.2.2 - bg.2.2 : ℤ) : ℝ) := by
    exact_mod_cast (by omega : (-255:ℤ) ≤ b.color.2.2 - bg.2.2)
  have d3u : ((b.color.2.2 - bg.2.2 : ℤ) : ℝ) ≤ 255 := by
    exact_mod_cast (by omega : b.color.2.2 - bg.2.2 ≤ (255:ℤ))
  have sq1 : (((b.color.1 - bg.1 : ℤ) : ℝ) / 255) ^ 2 ≤ 1 := by nlinarith
  have sq2 : (((b.color.2.1 - bg.2.1 : ℤ) : ℝ) / 255) ^ 2 ≤ 1 := by nlinarith
  have sq3 : (((b.color.2.2 - bg.2.2 : ℤ) : ℝ) / 255) ^ 2 ≤ 1 := by nlinarith
  have hsqrt3 : (0:ℝ) < Real.sqrt 3 := Real.sqrt_pos.mpr (by norm_num)
  have hle : calculate_color_distance b.color bg ≤ 1 := by
    rw [calculate_color_distance, div_le_one hsqrt3]
    exact Real.sqrt_le_sqrt (by linarith)
  have hge : 0 ≤ calculate_color_distance b.color bg := by
    rw [calculate_color_distance]
    positivity
  have heq : calculate_color_distance b.color bg = specNormalizedRGBDistance b.color bg := by
    rw [calculate_color_distance, specNormalizedRGBDistance,
      show (((b.color.1 - bg.1 : ℤ) : ℝ) / 255) ^ 2 +
          (((b.color.2.1 - bg.2.1 : ℤ) : ℝ) / 255) ^ 2 +
          (((b.color.2.2 - bg.2.2 : ℤ) : ℝ) / 255) ^ 2 =
        (((b.color.1 - bg.1 : ℤ) : ℝ) ^ 2 + ((b.color.2.1 - bg.2.1 : ℤ) : ℝ) ^ 2 +
          ((b.color.2.2 - bg.2.2 : ℤ) : ℝ) ^ 2) / 255 ^ 2 from by ring,
      Real.sqrt_div (by positivity) _,
      show Real.sqrt ((255:ℝ) ^ 2) = 255 from Real.sqrt_sq (by norm_num)]
    ring
  have hfit : (b.calculate_fitness bg).fitness = specBacteriaFitness b bg := by
    show 0.7 * max 0 (1 - calculate_color_distance b.color bg) + 0.3 * (b.energy / 200) =
      specBacteriaFitness b bg
    rw [specBacteriaFitness, ← heq,
      max_eq_right (by linarith : (0:ℝ) ≤ 1 - calculate_color_distance b.color bg),
      max_eq_right (by linarith :
        (0:ℝ) ≤ 0.7 * (1 - calculate_color_distance b.color bg) + 0.3 * (b.energy / 200))]
  exact ⟨heq, hge, hle, hfit, rfl⟩

/-- Witness for C5 at a concrete bacterium and the default background. -/
theorem C5_calculate_fitness_formula_witness :
    validRGB bactC4.color ∧ validRGB (240, 240, 240) ∧ (0:ℝ) ≤ bactC4.energy ∧
    calculate_color_distance bactC4.color (240, 240, 240) =
      specNormalizedRGBDistance bactC4.color (240, 240, 240) ∧
    (bactC4.calculate_fitness (240, 240, 240)).fitness =
      specBacteriaFitness bactC4 (240, 240, 240) := by
  have h := C5_calculate_fitness_formula bactC4 (240, 240, 240)
    (by norm_num [bactC4, validRGB]) (by norm_num [validRGB]) (by norm_num [bactC4])
  exact ⟨by norm_num [bactC4, validRGB], by norm_num [validRGB], by norm_num [bactC4],
    h.1, h.2.2.2.1⟩

/-! ### C6 -/

theorem cxGo_vals01 (roll : ℕ → ℝ) (indpb : ℝ) :
    ∀ (ks : List String) (m1 m2 : List (String × ℝ)) (i : ℕ)
      (r1 r2 : List (String × ℝ)), vals01 m1 → vals01 m2 →
      cxGo roll indpb ks m1 m2 i = some (r1, r2) → vals01 r1 ∧ vals01 r2 := by
  intro ks
  induction ks with
  | nil =>
    intro m1 m2 i r1 r2 h1 h2 h
    rw [cxGo] at h
    simp at h
    exact ⟨h.1 ▸ h1, h.2 ▸ h2⟩
  | cons k ks ih =>
    intro m1 m2 i r1 r2 h1 h2 h
    rw [cxGo] at h
    split at h
    · rcases hm1 : m1.lookup k with _ | v1 <;> rcases hm2 : m2.lookup k with _ | v2 <;>
        rw [hm1, hm2] at h <;> simp at h
      exact ih (setGene m1 k v2) (setGene m2 k v1) (i + 1) r1 r2
        (setGene_vals01 h1 (lookup_vals01 h2 hm2))
        (setGene_vals01 h2 (lookup_vals01 h1 hm1)) h
    · exact ih m1 m2 (i + 1) r1 r2 h1 h2 h

/-- C6: every gene value stays in [0, 1] after `Genome.mutate`, after the GA's
uniform crossover and Gaussian mutation operators, and after the
asexual-reproduction child-genome construction (the `random.random()` draw
for a brand-new gene lies in [0, 1]). -/
theorem C6_gene_values_stay_clamped :
    (∀ (g : Genome) (roll z : ℕ → ℝ) (rate strength : ℝ), vals01 g.genes →
      vals01 (g.mutate roll z rate strength).genes) ∧
    (∀ (roll : ℕ → ℝ) (indpb : ℝ) (ind1 ind2 r1 r2 : List (String × ℝ)),
      vals01 ind1 → vals01 ind2 →
      cx_uniform roll indpb ind1 ind2 = some (r1, r2) → vals01 r1 ∧ vals01 r2) ∧
    (∀ (roll z : ℕ → ℝ) (mu sigma indpb : ℝ) (ind : List (String × ℝ)),
      vals01 ind → vals01 (mutate_gaussian roll z mu sigma indpb ind)) ∧
    (∀ (b : Bacteria) (o : ReproOracle), vals01 b.genome →
      0 ≤ o.newGeneVal → o.newGeneVal ≤ 1 → vals01 (b.create_child_genome o)) := by
  refine ⟨?_, ?_, ?_, ?_⟩
  · intro g roll z rate strength hg q hq
    simp only [Genome.mutate, List.mem_map] at hq
    obtain ⟨p, hp, rfl⟩ := hq
    by_cases h : roll p.1 < rate
    · simp only [if_pos h]
      exact clamp01_mem _
    · simp only [if_neg h]
      exact hg p.2 (enum_snd_mem hp)
  · intro roll indpb ind1 ind2 r1 r2 h1 h2 h
    exact cxGo_vals01 roll indpb (ind1.map Prod.fst) ind1 ind2 0 r1 r2 h1 h2 h
  · intro roll z mu sigma indpb ind hind q hq
    simp only [mutate_gaussian, List.mem_map] at hq
    obtain ⟨p, hp, rfl⟩ := hq
    by_cases h : roll p.1 < indpb
    · simp only [if_pos h]
      exact clamp01_mem _
    · simp only [if_neg h]
      exact hind p.2 (enum_snd_mem hp)
  · intro b o hb hv1 hv2
    have hmut : vals01 (b.genome.enum.map fun q =>
        if o.mutRoll q.1 < SimulationConfig.BACTERIA_REPRODUCTION_MUTATION_RATE then
          let v1 := max 0 (min 1 (q.2.2 +
            SimulationConfig.MUTATION_STRENGTH * 0.5 * o.gauss q.1))
          if q.2.1 = "color_gene" then (q.2.1, max 0 (min 1 (v1 + o.colorRoll q.1)))
          else (q.2.1, v1)
        else (q.2.1, q.2.2)) := by
      intro q hq
      simp only [List.mem_map] at hq
      obtain ⟨p, hp, rfl⟩ := hq
      by_cases h : o.mutRoll p.1 < SimulationConfig.BACTERIA_REPRODUCTION_MUTATION_RATE
      · simp only [if_pos h]
        by_cases hcg : p.2.1 = "color_gene"
        · simp only [if_pos hcg]
          exact clamp01_mem _
        · simp only [if_neg hcg]
          exact clamp01_mem _
      · simp only [if_neg h]
        exact hb p.2 (enum_snd_mem hp)
    rw [Bacteria.create_child_genome]
    dsimp only
    split
    · exact setGene_vals01 hmut ⟨hv1, hv2⟩
    · exact hmut

/-- Witness for C6: `Genome.mutate` on a concrete one-gene genome. -/
theorem C6_gene_values_stay_clamped_witness :
    vals01 [("color_gene", (0.5:ℝ))] ∧
    vals01 ((Genome.mutate ⟨[("color_gene", 0.5)], "bacteria"⟩
      (fun _ => 0) (fun _ => 1) 0.01 0.1).genes) := by
  have hv : vals01 [("color_gene", (0.5:ℝ))] := by
    intro q hq
    simp at hq
    rw [hq]
    norm_num
  exact ⟨hv, C6_gene_values_stay_clamped.1 ⟨[("color_gene", 0.5)], "bacteria"⟩
    (fun _ => 0) (fun _ => 1) 0.01 0.1 hv⟩

/-! ### C7 -/

/-- C7: `capture_bacteria` returns true iff the Euclidean phagocyte–bacterium
distance is strictly below the capture radius; on success the phagocyte's
energy becomes min 200 (energy + ENERGY_GAIN·(1 + 0.5·aggression)) — at most
200, and no decrease whenever the pre-energy was ≤ 200 and the aggression gene
non-negative; on failure it returns false with the phagocyte unchanged. -/
theorem C7_capture_bacteria_contract (p : Phagocyte) (b : Bacteria) :
    ((p.capture_bacteria b).1 = true ↔ phagDist p b < SimulationConfig.CAPTURE_RADIUS) ∧
    (phagDist p b < SimulationConfig.CAPTURE_RADIUS →
      (p.capture_bacteria b).2 =
        { p with
          energy := min 200 (p.energy + SimulationConfig.ENERGY_GAIN *
            (1 + 0.5 * geneD p.genome "aggression_gene" 0.5)) } ∧
      (p.capture_bacteria b).2.energy ≤ 200 ∧
      (0 ≤ geneD p.genome "aggression_gene" 0.5 → p.energy ≤ 200 →
        p.energy ≤ (p.capture_bacteria b).2.energy)) ∧
    (¬ phagDist p b < SimulationConfig.CAPTURE_RADIUS →
      p.capture_bacteria b = (false, p)) := by
  unfold Phagocyte.capture_bacteria phagDist
  dsimp only
  by_cases hd : Real.sqrt ((b.x - p.x) ^ 2 + (b.y - p.y) ^ 2) <
    SimulationConfig.CAPTURE_RADIUS
  · simp only [if_pos hd]
    refine ⟨by simp [hd], fun _ => ⟨by trivial, min_le_left _ _, fun ha hE => ?_⟩,
      fun h => absurd hd h⟩
    have hg : 0 ≤ SimulationConfig.ENERGY_GAIN *
        (1 + 0.5 * geneD p.genome "aggression_gene" 0.5) := by
      rw [SimulationConfig.ENERGY_GAIN]
      nlinarith
    exact le_min hE (by linarith)
  · simp only [if_neg hd]
    exact ⟨by simp [hd], fun h => absurd h hd, fun _ => by trivial⟩

/-- Witness for C7: the hunter phagocyte captures the bacterium at distance 5
(< capture radius 10). -/
theorem C7_capture_bacteria_contract_witness :
    phagDist phagHunter bactWhiteA < SimulationConfig.CAPTURE_RADIUS ∧
    (phagHunter.capture_bacteria bactWhiteA).1 = true ∧
    (phagHunter.capture_bacteria bactWhiteA).2.energy ≤ 200 := by
  have hdist : phagDist phagHunter bactWhiteA = 5 := by
    rw [phagDist]
    apply sqrt_eval (by norm_num)
    norm_num [bactWhiteA, phagHunter]
  have hlt : phagDist phagHunter bactWhiteA < SimulationConfig.CAPTURE_RADIUS := by
    rw [hdist, SimulationConfig.CAPTURE_RADIUS]
    norm_num
  have h := C7_capture_bacteria_contract phagHunter bactWhiteA
  exact ⟨hlt, h.1.mpr hlt, (h.2.1 hlt).2.1⟩

/-! ### C8 -/

theorem truncate_fittest {α : Type} (fit : α → ℝ) (l : List α) (n : ℕ) :
    ((List.insertionSort (fun a b => fit b ≤ fit a) l).take n).length = min n l.length ∧
    (∀ x ∈ (List.insertionSort (fun a b => fit b ≤ fit a) l).take n, x ∈ l) ∧
    (((List.insertionSort (fun a b => fit b ≤ fit a) l).take n) ++
      ((List.insertionSort (fun a b => fit b ≤ fit a) l).drop n)).Perm l ∧
    (∀ x ∈ (List.insertionSort (fun a b => fit b ≤ fit a) l).take n,
      ∀ y ∈ (List.insertionSort (fun a b => fit b ≤ fit a) l).drop n,
        fit y ≤ fit x) := by
  haveI : IsTotal α (fun a b => fit b ≤ fit a) := ⟨fun a b => le_total (fit b) (fit a)⟩
  haveI : IsTrans α (fun a b => fit b ≤ fit a) := ⟨fun a b c h1 h2 => le_trans h2 h1⟩
  have hperm := List.perm_insertionSort (fun a b => fit b ≤ fit a) l
  refine ⟨?_, ?_, ?_, ?_⟩
  · rw [List.length_take, hperm.length_eq]
  · intro x hx
    exact hperm.mem_iff.mp (List.mem_of_mem_take hx)
  · rw [List.take_append_drop]
    exact hperm
  · have hs := List.sorted_insertionSort (fun a b => fit b ≤ fit a) l
    rw [← List.take_append_drop n (List.insertionSort (fun a b => fit b ≤ fit a) l)] at hs
    exact (List.pairwise_append.mp hs).2.2

/-- C8: after `control_population_size` the bacteria list has at most
MAX_POPULATION entries and the phagocyte list at most MAX_POPULATION / 2;
every survivor comes from the original population, and when a population was
over its cap the survivors are exactly the cap-many fittest: the original
population splits into the kept part and a culled part in which every
individual's fitness is ≤ every kept individual's fitness. -/
theorem C8_population_caps (s : Simulation) :
    s.control_population_size.bacteria.length ≤ SimulationConfig.MAX_POPULATION ∧
    s.control_population_size.phagocytes.length ≤ SimulationConfig.MAX_POPULATION / 2 ∧
    (∀ b ∈ s.control_population_size.bacteria, b ∈ s.bacteria) ∧
    (∀ p ∈ s.control_population_size.phagocytes, p ∈ s.phagocytes) ∧
    (s.bacteria.length > SimulationConfig.MAX_POPULATION →
      s.control_population_size.bacteria.length = SimulationConfig.MAX_POPULATION ∧
      ∃ culled, (s.control_population_size.bacteria ++ culled).Perm s.bacteria ∧
        ∀ x ∈ s.control_population_size.bacteria, ∀ y ∈ culled,
          y.fitness ≤ x.fitness) ∧
    (s.phagocytes.length > SimulationConfig.MAX_POPULATION / 2 →
      s.control_population_size.phagocytes.length = SimulationConfig.MAX_POPULATION / 2 ∧
      ∃ culled, (s.control_population_size.phagocytes ++ culled).Perm s.phagocytes ∧
        ∀ x ∈ s.control_population_size.phagocytes, ∀ y ∈ culled,
          y.fitness ≤ x.fitness) := by
  obtain ⟨hbl, hbm, hbp, hbf⟩ :=
    truncate_fittest (fun b : Bacteria => b.fitness) s.bacteria
      SimulationConfig.MAX_POPULATION
  obtain ⟨hpl, hpm, hpp, hpf⟩ :=
    truncate_fittest (fun p : Phagocyte => p.fitness) s.phagocytes
      (SimulationConfig.MAX_POPULATION / 2)
  unfold Simulation.control_population_size
  dsimp only
  refine ⟨?_, ?_, ?_, ?_, ?_, ?_⟩
  · by_cases hb : s.bacteria.length > SimulationConfig.MAX_POPULATION
    · rw [if_pos hb, hbl]; omega
    · rw [if_neg hb]; omega
  · by_cases hp : s.phagocytes.length > SimulationConfig.MAX_POPULATION / 2
    · rw [if_pos hp, hpl]; omega
    · rw [if_neg hp]; omega
  · by_cases hb : s.bacteria.length > SimulationConfig.MAX_POPULATION
    · rw [if_pos hb]; exact hbm
    · rw [if_neg hb]; intro b h2; exact h2
  · by_cases hp : s.phagocytes.length > SimulationConfig.MAX_POPULATION / 2
    · rw [if_pos hp]; exact hpm
    · rw [if_neg hp]; intro p h2; exact h2
  · intro hb
    rw [if_pos hb]
    exact ⟨by rw [hbl]; omega, _, hbp, hbf⟩
  · intro hp
    rw [if_pos hp]
    exact ⟨by rw [hpl]; omega, _, hpp, hpf⟩

/-- Witness for C8 at a concrete over-cap population (201 bacteria). -/
theorem C8_population_caps_witness :
    simC8.bacteria.length > SimulationConfig.MAX_POPULATION ∧
    simC8.control_population_size.bacteria.length = SimulationConfig.MAX_POPULATION ∧
    simC8.control_population_size.phagocytes.length ≤
      SimulationConfig.MAX_POPULATION / 2 := by
  have hlen : simC8.bacteria.length > SimulationConfig.MAX_POPULATION := by
    show (List.replicate 201 bactC4).length > 200
    rw [List.length_replicate]
    norm_num
  have h := C8_population_caps simC8
  exact ⟨hlen, (h.2.2.2.2.1 hlen).1, h.2.1⟩

/-! ### C9 -/

/-- C9: the vulnerability ranking is recomputed lazily.  While fewer than
`ranking_update_frequency` generations have elapsed since the last recompute,
`get_ranked_bacteria_in_range` leaves the whole simulation (cache included)
unchanged, and its result is a function of the cached ranking, the background
colour, the phagocyte and the radius alone: two under-threshold calls from
states sharing cache and background return identical lists even if the
current live bacteria differ.  Once at least `ranking_update_frequency`
generations have elapsed, the call recomputes the cache from the current live
bacteria (`update_bacteria_rankings`) and stamps it with the current
generation. -/
theorem C9_ranking_cache_policy (s s' : Simulation) (p : Phagocyte) (md : Option ℝ) :
    ((s.generation : ℤ) - (s.last_ranking_update : ℤ) <
        (s.ranking_update_frequency : ℤ) →
      (s.get_ranked_bacteria_in_range p md).2 = s) ∧
    ((s.generation : ℤ) - (s.last_ranking_update : ℤ) <
        (s.ranking_update_frequency : ℤ) →
      (s'.generation : ℤ) - (s'.last_ranking_update : ℤ) <
        (s'.ranking_update_frequency : ℤ) →
      s.bacteria_rankings = s'.bacteria_rankings →
      s.background_color = s'.background_color →
      (s.get_ranked_bacteria_in_range p md).1 =
        (s'.get_ranked_bacteria_in_range p md).1) ∧
    ((s.generation : ℤ) - (s.last_ranking_update : ℤ) ≥
        (s.ranking_update_frequency : ℤ) →
      (s.get_ranked_bacteria_in_range p md).2 = s.update_bacteria_rankings ∧
      (s.get_ranked_bacteria_in_range p md).2.last_ranking_update = s.generation) := by
  refine ⟨?_, ?_, ?_⟩
  · intro hgap
    unfold Simulation.get_ranked_bacteria_in_range
    dsimp only
    rw [if_neg (not_le.mpr hgap)]
  · intro hgap hgap' hrank hbg
    unfold Simulation.get_ranked_bacteria_in_range
    dsimp only
    rw [if_neg (not_le.mpr hgap), if_neg (not_le.mpr hgap'), hrank, hbg]
  · intro hgap
    unfold Simulation.get_ranked_bacteria_in_range
    dsimp only
    rw [if_pos hgap]
    exact ⟨rfl, rfl⟩

/-- Witness for C9: a fresh cache (generation 0, last update 0, frequency 5)
is not recomputed by a range query. -/
theorem C9_ranking_cache_policy_witness :
    ((simC1.generation : ℤ) - (simC1.last_ranking_update : ℤ) <
      (simC1.ranking_update_frequency : ℤ)) ∧
    (simC1.get_ranked_bacteria_in_range phagHunter none).2 = simC1 := by
  have hgap : (simC1.generation : ℤ) - (simC1.last_ranking_update : ℤ) <
      (simC1.ranking_update_frequency : ℤ) := by
    show ((0:ℕ) : ℤ) - ((0:ℕ) : ℤ) < ((5:ℕ) : ℤ)
    norm_num
  exact ⟨hgap, (C9_ranking_cache_policy simC1 simC1 phagHunter none).1 hgap⟩

/-! ### C1 -/

theorem sqrt3_pos : (0:ℝ) < Real.sqrt 3 := Real.sqrt_pos.mpr (by norm_num)

theorem whiteA_vuln : bactWhiteA.calculate_vulnerability (0, 0, 0) = 1 := by
  unfold Bacteria.calculate_vulnerability
  rw [show bactWhiteA.color = ((255:ℤ), (255:ℤ), (255:ℤ)) from rfl]
  norm_num

theorem whiteA_score : bactWhiteA.get_vulnerability_score (0, 0, 0) = 0.6 := by
  unfold Bacteria.get_vulnerability_score
  rw [whiteA_vuln]
  rw [show bactWhiteA.energy = 200 from rfl, show bactWhiteA.age = 0 from rfl]
  norm_num [SimulationConfig.VULNERABILITY_COLOR_WEIGHT,
    SimulationConfig.VULNERABILITY_ENERGY_WEIGHT, SimulationConfig.VULNERABILITY_AGE_WEIGHT]

theorem whiteB_vuln : bactWhiteB.calculate_vulnerability (0, 0, 0) = 1 := by
  unfold Bacteria.calculate_vulnerability
  rw [show bactWhiteB.color = ((255:ℤ), (255:ℤ), (255:ℤ)) from rfl]
  norm_num

theorem whiteB_score : bactWhiteB.get_vulnerability_score (0, 0, 0) = 0.75 := by
  unfold Bacteria.get_vulnerability_score
  rw [whiteB_vuln]
  rw [show bactWhiteB.energy = 100 from rfl, show bactWhiteB.age = 0 from rfl]
  norm_num [SimulationConfig.VULNERABILITY_COLOR_WEIGHT,
    SimulationConfig.VULNERABILITY_ENERGY_WEIGHT, SimulationConfig.VULNERABILITY_AGE_WEIGHT]

/-- A maximally sensitive/aggressive phagocyte detects a pure-white,
zero-stored-fitness bacterium on a black background. -/
theorem detect_max_white (p : Phagocyte) (b : Bacteria)
    (hs : p.genome = [("sensitivity_gene", 1), ("speed_gene", 1),
      ("vision_gene", 1), ("aggression_gene", 1)])
    (hcol : b.color = (255, 255, 255)) (hfit : b.fitness = 0) :
    p.detect_bacteria b (0, 0, 0) := by
  unfold Phagocyte.detect_bacteria
  rw [hs, hcol, hfit]
  simp only [geneD]
  simp [List.lookup]
  norm_num

theorem distA : Real.sqrt ((bactWhiteA.x - phagHunter.x) ^ 2 +
    (bactWhiteA.y - phagHunter.y) ^ 2) = 5 := by
  rw [show bactWhiteA.x = 3 from rfl, show bactWhiteA.y = 4 from rfl,
    show phagHunter.x = 0 from rfl, show phagHunter.y = 0 from rfl]
  exact sqrt_eval (by norm_num) (by norm_num)

theorem distB : Real.sqrt ((bactWhiteB.x - phagHunter.x) ^ 2 +
    (bactWhiteB.y - phagHunter.y) ^ 2) = 10 := by
  rw [show bactWhiteB.x = 6 from rfl, show bactWhiteB.y = 8 from rfl,
    show phagHunter.x = 0 from rfl, show phagHunter.y = 0 from rfl]
  exact sqrt_eval (by norm_num) (by norm_num)

theorem aliveA : bactWhiteA.is_alive := by
  constructor
  · norm_num [bactWhiteA]
  · norm_num [bactWhiteA]

theorem aliveB : bactWhiteB.is_alive := by
  constructor
  · norm_num [bactWhiteB]
  · norm_num [bactWhiteB]

/-- Evaluation of the range query on `simC1`: both cached bacteria are live,
in range and detectable; the result is re-sorted by ascending distance, so
the nearer `bactWhiteA` (distance 5) precedes the more vulnerable
`bactWhiteB` (distance 10). -/
theorem simC1_query :
    (simC1.get_ranked_bacteria_in_range phagHunter none).1 =
      [bactWhiteA, bactWhiteB] := by
  unfold Simulation.get_ranked_bacteria_in_range
  dsimp only
  rw [if_neg (by
    rw [show simC1.generation = 0 from rfl, show simC1.last_ranking_update = 0 from rfl,
      show simC1.ranking_update_frequency = 5 from rfl]
    norm_num :
    ¬ ((simC1.generation : ℤ) - (simC1.last_ranking_update : ℤ) ≥
      (simC1.ranking_update_frequency : ℤ)))]
  rw [show simC1.bacteria_rankings = [bactWhiteB, bactWhiteA] from rfl]
  rw [List.filterMap_cons, List.filterMap_cons, List.filterMap_nil]
  rw [if_pos aliveB, if_pos aliveA]
  rw [distA, distB]
  rw [if_pos ⟨by norm_num [Option.getD, SimulationConfig.DETECTION_RADIUS],
    detect_max_white phagHunter bactWhiteB rfl rfl rfl⟩]
  rw [if_pos ⟨by norm_num [Option.getD, SimulationConfig.DETECTION_RADIUS],
    detect_max_white phagHunter bactWhiteA rfl rfl rfl⟩]
  dsimp only
  norm_num [List.insertionSort, List.orderedInsert]

/-- C1 counterexample: in `simC1` the phagocyte's `find_target_bacteria`
returns `bactWhiteA`, yet `bactWhiteB` is also a detectable in-range entry of
the returned list with strictly HIGHER vulnerability, and the two distances
differ (no tie) — so the first entry is not the most-vulnerable detectable
bacteria with distance as tie-break. -/
theorem C1_first_entry_not_most_vulnerable :
    (phagHunter.find_target_bacteria simC1).1 = some bactWhiteA ∧
    bactWhiteB ∈ (simC1.get_ranked_bacteria_in_range phagHunter none).1 ∧
    bactWhiteA.get_vulnerability_score simC1.background_color <
      bactWhiteB.get_vulnerability_score simC1.background_color ∧
    phagDist phagHunter bactWhiteA ≠ phagDist phagHunter bactWhiteB := by
  refine ⟨?_, ?_, ?_, ?_⟩
  · unfold Phagocyte.find_target_bacteria
    dsimp only
    rw [simC1_query]
    rfl
  · rw [simC1_query]
    simp
  · rw [show simC1.background_color = ((0:ℤ), (0:ℤ), (0:ℤ)) from rfl,
      whiteA_score, whiteB_score]
    norm_num
  · unfold phagDist
    rw [distA, distB]
    norm_num

/-- C1 (amended): `find_target_bacteria` returns the first entry of
`get_ranked_bacteria_in_range` (and its updated simulation); the returned
list is ordered by non-decreasing distance from the phagocyte, so that first
entry is the NEAREST detectable bacterium within the detection radius —
distance determines the final selection order, while the cached vulnerability
ranking only supplies the candidate order that stable sorting preserves among
equal distances. -/
theorem C1_target_selection_nearest_first (p : Phagocyte) (s : Simulation) :
    p.find_target_bacteria s =
      ((s.get_ranked_bacteria_in_range p none).1.head?,
        (s.get_ranked_bacteria_in_range p none).2) ∧
    List.Pairwise (fun a b => phagDist p a ≤ phagDist p b)
      (s.get_ranked_bacteria_in_range p none).1 ∧
    (∀ b, (s.get_ranked_bacteria_in_range p none).1.head? = some b →
      ∀ c ∈ (s.get_ranked_bacteria_in_range p none).1,
        phagDist p b ≤ phagDist p c) := by
  have hpair : List.Pairwise (fun a b => phagDist p a ≤ phagDist p b)
      (s.get_ranked_bacteria_in_range p none).1 := by
    unfold Simulation.get_ranked_bacteria_in_range
    dsimp only
    generalize (if (s.generation : ℤ) - (s.last_ranking_update : ℤ) ≥
      (s.ranking_update_frequency : ℤ) then s.update_bacteria_rankings else s) = s1
    haveI : IsTotal (ℝ × Bacteria) (fun q q' => q.1 ≤ q'.1) :=
      ⟨fun a b => le_total _ _⟩
    haveI : IsTrans (ℝ × Bacteria) (fun q q' => q.1 ≤ q'.1) :=
      ⟨fun a b c h1 h2 => le_trans h1 h2⟩
    have hshape : ∀ q ∈ (s1.bacteria_rankings.filterMap fun b =>
        if b.is_alive then
          if Real.sqrt ((b.x - p.x) ^ 2 + (b.y - p.y) ^ 2) <
              (none : Option ℝ).getD SimulationConfig.DETECTION_RADIUS ∧
              p.detect_bacteria b s1.background_color then
            some (Real.sqrt ((b.x - p.x) ^ 2 + (b.y - p.y) ^ 2), b)
          else none
        else none), q.1 = phagDist p q.2 := by
      intro q hq
      rw [List.mem_filterMap] at hq
      obtain ⟨a, ha, hfa⟩ := hq
      split at hfa
      · split at hfa
        · rw [Option.some_inj] at hfa
          rw [← hfa]
          rfl
        · simp at hfa
      · simp at hfa
    have hsorted := List.sorted_insertionSort (fun q q' : ℝ × Bacteria => q.1 ≤ q'.1)
      (s1.bacteria_rankings.filterMap fun b =>
        if b.is_alive then
          if Real.sqrt ((b.x - p.x) ^ 2 + (b.y - p.y) ^ 2) <
              (none : Option ℝ).getD SimulationConfig.DETECTION_RADIUS ∧
              p.detect_bacteria b s1.background_color then
            some (Real.sqrt ((b.x - p.x) ^ 2 + (b.y - p.y) ^ 2), b)
          else none
        else none)
    rw [List.pairwise_map]
    refine hsorted.imp_of_mem ?_
    intro a b ha hb hle
    have hsa := hshape a ((List.mem_insertionSort _).mp ha)
    have hsb := hshape b ((List.mem_insertionSort _).mp hb)
    rw [← hsa, ← hsb]
    exact hle
  refine ⟨rfl, hpair, ?_⟩
  intro b hb c hc
  cases hres : (s.get_ranked_bacteria_in_range p none).1 with
  | nil => rw [hres] at hb; simp at hb
  | cons x t =>
    rw [hres] at hb hc
    simp at hb
    rw [hres] at hpair
    rcases List.mem_cons.mp hc with rfl | hct
    · rw [← hb]
    · rw [hb] at hpair
      exact (List.pairwise_cons.mp hpair).1 c hct

/-- Witness for the amended C1 in `simC1`: the returned target is the head of
the ranked list and minimizes distance over the whole returned list. -/
theorem C1_target_selection_nearest_first_witness :
    (phagHunter.find_target_bacteria simC1).1 = some bactWhiteA ∧
    (simC1.get_ranked_bacteria_in_range phagHunter none).1.head? = some bactWhiteA ∧
    ∀ c ∈ (simC1.get_ranked_bacteria_in_range phagHunter none).1,
      phagDist phagHunter bactWhiteA ≤ phagDist phagHunter c := by
  have h := C1_target_selection_nearest_first phagHunter simC1
  have hhead : (simC1.get_ranked_bacteria_in_range phagHunter none).1.head? =
      some bactWhiteA := by
    rw [simC1_query]
    rfl
  refine ⟨?_, hhead, h.2.2 bactWhiteA hhead⟩
  rw [h.1]
  exact hhead

/-! ### C3 -/

theorem normalize_velocity_eval {x y s : ℝ} (hs : Real.sqrt (x ^ 2 + y ^ 2) = s)
    (hpos : 0 < s) : normalize_velocity x y = (x / s, y / s) := by
  unfold normalize_velocity
  dsimp only
  rw [hs, if_pos hpos]

/-- C3 (amended): after the base `Agent.move` (the path taken by bacteria and
by phagocytes without a target): energy lies in [0, 200] unconditionally;
the position lies within the radius-adjusted arena bounds provided the canvas
is at least twice the agent size; and the velocity is exactly unit length
provided the incoming velocity was unit and the jitter draws are bounded by
TURN_RATE.  The phagocyte chase path (`chase_bacteria`), by contrast, changes
only the velocity: position, energy and age are untouched (and the velocity
magnitude it produces is the gene-scaled max speed, not 1 — see the
counterexample). -/
theorem C3_move_invariants (a : Agent) (w h jx jy size : ℝ)
    (hsize : size = if a.species = "bacteria" then SimulationConfig.AGENT_SIZE
      else SimulationConfig.PHAGOCYTE_SIZE) :
    (0 ≤ (a.move w h jx jy).energy ∧ (a.move w h jx jy).energy ≤ 200) ∧
    (2 * size ≤ w → 2 * size ≤ h →
      size ≤ (a.move w h jx jy).x ∧ (a.move w h jx jy).x ≤ w - size ∧
      size ≤ (a.move w h jx jy).y ∧ (a.move w h jx jy).y ≤ h - size) ∧
    (a.vx ^ 2 + a.vy ^ 2 = 1 → |jx| ≤ SimulationConfig.TURN_RATE →
      |jy| ≤ SimulationConfig.TURN_RATE →
      (a.move w h jx jy).vx ^ 2 + (a.move w h jx jy).vy ^ 2 = 1) ∧
    (∀ (p : Phagocyte) (b : Bacteria),
      (p.chase_bacteria b).x = p.x ∧ (p.chase_bacteria b).y = p.y ∧
      (p.chase_bacteria b).energy = p.energy ∧ (p.chase_bacteria b).age = p.age) := by
  subst hsize
  refine ⟨?_, ?_, ?_, ?_⟩
  · unfold Agent.move
    dsimp only
    constructor
    · exact le_max_left _ _
    · exact max_le (by norm_num) (min_le_left _ _)
  · intro hw hh
    unfold Agent.move
    dsimp only
    set size := if a.species = "bacteria" then SimulationConfig.AGENT_SIZE
      else SimulationConfig.PHAGOCYTE_SIZE with hsz
    have hsp : 0 < size := by
      rw [hsz]
      split <;> norm_num [SimulationConfig.AGENT_SIZE, SimulationConfig.PHAGOCYTE_SIZE]
    set nx := a.x + (normalize_velocity (a.vx + jx) (a.vy + jy)).1 *
      SimulationConfig.MAX_SPEED with hnx
    set ny := a.y + (normalize_velocity (a.vx + jx) (a.vy + jy)).2 *
      SimulationConfig.MAX_SPEED with hny
    refine ⟨?_, ?_, ?_, ?_⟩ <;> split_ifs <;> dsimp only <;> linarith
  · intro hunit hjx hjy
    have hT : SimulationConfig.TURN_RATE = 0.1 := rfl
    have hnz : (a.vx + jx) ^ 2 + (a.vy + jy) ^ 2 ≠ 0 := by
      intro h0
      have hx0 : a.vx + jx = 0 := by
        nlinarith [sq_nonneg (a.vx + jx), sq_nonneg (a.vy + jy)]
      have hy0 : a.vy + jy = 0 := by
        nlinarith [sq_nonneg (a.vx + jx), sq_nonneg (a.vy + jy)]
      have hjx2 : jx ^ 2 ≤ 0.01 := by
        have h1 := sq_le_sq' (neg_le_of_abs_le (hT ▸ hjx)) (le_of_abs_le (hT ▸ hjx))
        nlinarith [h1]
      have hjy2 : jy ^ 2 ≤ 0.01 := by
        have h1 := sq_le_sq' (neg_le_of_abs_le (hT ▸ hjy)) (le_of_abs_le (hT ▸ hjy))
        nlinarith [h1]
      have hvx2 : a.vx ^ 2 = jx ^ 2 := by
        rw [show a.vx = -jx from by linarith]
        ring
      have hvy2 : a.vy ^ 2 = jy ^ 2 := by
        rw [show a.vy = -jy from by linarith]
        ring
      rw [hvx2, hvy2] at hunit
      linarith
    have hv0 := normalize_velocity_normSq hnz
    unfold Agent.move
    dsimp only
    set nv := normalize_velocity (a.vx + jx) (a.vy + jy) with hnv
    set size := (if a.species = "bacteria" then SimulationConfig.AGENT_SIZE
      else SimulationConfig.PHAGOCYTE_SIZE) with hsz
    generalize hgx : (if a.x + nv.1 * SimulationConfig.MAX_SPEED - size < 0 then
        (|nv.1|, size, true)
      else if a.x + nv.1 * SimulationConfig.MAX_SPEED + size > w then
        (-|nv.1|, w - size, true)
      else (nv.1, a.x + nv.1 * SimulationConfig.MAX_SPEED, false)) = tx
    generalize hgy : (if a.y + nv.2 * SimulationConfig.MAX_SPEED - size < 0 then
        (|nv.2|, size, true)
      else if a.y + nv.2 * SimulationConfig.MAX_SPEED + size > h then
        (-|nv.2|, h - size, true)
      else (nv.2, a.y + nv.2 * SimulationConfig.MAX_SPEED, false)) = ty
    have htx : tx.1 ^ 2 = nv.1 ^ 2 := by
      rw [← hgx]
      split_ifs <;> simp [neg_sq, sq_abs]
    have hty : ty.1 ^ 2 = nv.2 ^ 2 := by
      rw [← hgy]
      split_ifs <;> simp [neg_sq, sq_abs]
    cases hb : (tx.2.2 || ty.2.2) with
    | true =>
      rw [if_pos rfl]
      apply normalize_velocity_normSq
      intro h0
      nlinarith [htx, hty, hv0, h0]
    | false =>
      rw [if_neg (by simp : ¬ (false = true))]
      dsimp only
      nlinarith [htx, hty, hv0]
  · intro p b
    unfold Phagocyte.chase_bacteria
    dsimp only
    split_ifs
    · exact ⟨rfl, rfl, rfl, rfl⟩
    · exact ⟨rfl, rfl, rfl, rfl⟩

/-- Witness for the amended C3: a concrete bacterium-agent moved with zero
jitter on the 800×600 canvas keeps all three invariants. -/
theorem C3_move_invariants_witness :
    bactC4.vx ^ 2 + bactC4.vy ^ 2 = 1 ∧
    |(0:ℝ)| ≤ SimulationConfig.TURN_RATE ∧
    2 * SimulationConfig.AGENT_SIZE ≤ 800 ∧ 2 * SimulationConfig.AGENT_SIZE ≤ 600 ∧
    (0 ≤ (bactC4.toAgent.move 800 600 0 0).energy ∧
      (bactC4.toAgent.move 800 600 0 0).energy ≤ 200) ∧
    (bactC4.toAgent.move 800 600 0 0).vx ^ 2 +
      (bactC4.toAgent.move 800 600 0 0).vy ^ 2 = 1 ∧
    SimulationConfig.AGENT_SIZE ≤ (bactC4.toAgent.move 800 600 0 0).x := by
  have h := C3_move_invariants bactC4.toAgent 800 600 0 0 SimulationConfig.AGENT_SIZE
    (by rw [show bactC4.toAgent.species = "bacteria" from rfl]; simp)
  have hunit : bactC4.vx ^ 2 + bactC4.vy ^ 2 = 1 := by norm_num [bactC4]
  have hj : |(0:ℝ)| ≤ SimulationConfig.TURN_RATE := by
    rw [show SimulationConfig.TURN_RATE = 0.1 from rfl]
    norm_num
  have hw : 2 * SimulationConfig.AGENT_SIZE ≤ (800:ℝ) := by
    rw [show SimulationConfig.AGENT_SIZE = 5.0 from rfl]
    norm_num
  have hh : 2 * SimulationConfig.AGENT_SIZE ≤ (600:ℝ) := by
    rw [show SimulationConfig.AGENT_SIZE = 5.0 from rfl]
    norm_num
  exact ⟨hunit, hj, hw, hh, h.1, h.2.2.1 hunit hj hj, (h.2.1 hw hh).1⟩

theorem distC : Real.sqrt ((bactChase.x - phagChaser.x) ^ 2 +
    (bactChase.y - phagChaser.y) ^ 2) = 5 := by
  rw [show bactChase.x = 3.5 from rfl, show bactChase.y = 4.5 from rfl,
    show phagChaser.x = 0.5 from rfl, show phagChaser.y = 0.5 from rfl]
  exact sqrt_eval (by norm_num) (by norm_num)

theorem aliveC : bactChase.is_alive := by
  constructor
  · norm_num [bactChase]
  · norm_num [bactChase]

theorem simC3_query :
    (simC3.get_ranked_bacteria_in_range phagChaser none).1 = [bactChase] := by
  unfold Simulation.get_ranked_bacteria_in_range
  dsimp only
  rw [if_neg (by
    rw [show simC3.generation = 0 from rfl, show simC3.last_ranking_update = 0 from rfl,
      show simC3.ranking_update_frequency = 5 from rfl]
    norm_num :
    ¬ ((simC3.generation : ℤ) - (simC3.last_ranking_update : ℤ) ≥
      (simC3.ranking_update_frequency : ℤ)))]
  rw [show simC3.bacteria_rankings = [bactChase] from rfl]
  rw [List.filterMap_cons, List.filterMap_nil]
  rw [if_pos aliveC]
  rw [distC]
  rw [if_pos ⟨by norm_num [Option.getD, SimulationConfig.DETECTION_RADIUS],
    detect_max_white phagChaser bactChase rfl rfl rfl⟩]
  dsimp only
  norm_num [List.insertionSort, List.orderedInsert]

theorem chaseC_eval : phagChaser.chase_bacteria bactChase =
    { phagChaser with vx := 2.4, vy := 3.2 } := by
  unfold Phagocyte.chase_bacteria
  dsimp only
  rw [show bactChase.x = 3.5 from rfl, show bactChase.y = 4.5 from rfl,
    show phagChaser.x = 0.5 from rfl, show phagChaser.y = 0.5 from rfl]
  rw [show Real.sqrt (((3.5:ℝ) - 0.5) ^ 2 + ((4.5:ℝ) - 0.5) ^ 2) = 5 from
    sqrt_eval (by norm_num) (by norm_num)]
  rw [if_pos (by norm_num : (5:ℝ) > 0)]
  simp only [geneD]
  simp [List.lookup]
  rw [show phagChaser.vx = 0.6 from rfl, show phagChaser.vy = 0.8 from rfl,
    show SimulationConfig.TURN_RATE = 0.1 from rfl,
    show SimulationConfig.MAX_SPEED = 2.0 from rfl]
  rw [show (0.6:ℝ) + (3.5 - 0.5) / 5 * (0.1 * (1 + 1)) = 0.72 from by norm_num,
    show (0.8:ℝ) + (4.5 - 0.5) / 5 * (0.1 * (1 + 1)) = 0.96 from by norm_num]
  rw [normalize_velocity_eval
    (sqrt_eval (by norm_num) (by norm_num : (0.72:ℝ) ^ 2 + 0.96 ^ 2 = 1.2 ^ 2))
    (by norm_num : (0:ℝ) < 1.2)]
  norm_num

theorem moveC_eval : (phagChaser.move 800 600 simC3 0 0).1 =
    phagChaser.chase_bacteria bactChase := by
  unfold Phagocyte.move Phagocyte.find_target_bacteria
  dsimp only
  rw [simC3_query]
  rfl

/-- C3 counterexample: the phagocyte `move` path that chases a ranked target
violates the claimed invariants even from a pre-state satisfying the data
model (unit velocity, energy 100 ∈ [0,200], position inside the arena): after
`move` the velocity has squared magnitude 16 (magnitude 4, not ≈ 1) and the
position is unchanged at x = 0.5, which is NOT within the arena bounds
adjusted for the phagocyte radius 8. -/
theorem C3_chase_path_violates_invariants :
    (phagChaser.move 800 600 simC3 0 0).1.vx ^ 2 +
      (phagChaser.move 800 600 simC3 0 0).1.vy ^ 2 = 16 ∧
    (phagChaser.move 800 600 simC3 0 0).1.x = 0.5 ∧
    (phagChaser.move 800 600 simC3 0 0).1.x < SimulationConfig.PHAGOCYTE_SIZE ∧
    (phagChaser.move 800 600 simC3 0 0).1.energy = phagChaser.energy ∧
    phagChaser.vx ^ 2 + phagChaser.vy ^ 2 = 1 ∧
    0 ≤ phagChaser.energy ∧ phagChaser.energy ≤ 200 := by
  rw [moveC_eval, chaseC_eval]
  refine ⟨?_, rfl, ?_, rfl, ?_, ?_, ?_⟩
  · show (2.4:ℝ) ^ 2 + (3.2:ℝ) ^ 2 = 16
    norm_num
  · show (0.5:ℝ) < SimulationConfig.PHAGOCYTE_SIZE
    rw [show SimulationConfig.PHAGOCYTE_SIZE = 8.0 from rfl]
    norm_num
  · show (0.6:ℝ) ^ 2 + (0.8:ℝ) ^ 2 = 1
    norm_num
  · show (0:ℝ) ≤ 100
    norm_num
  · show (100:ℝ) ≤ 200
    norm_num

/-! ### C10 -/

theorem capture_fst_iff (p : Phagocyte) (b : Bacteria) :
    (p.capture_bacteria b).1 = true ↔
      phagDist p b < SimulationConfig.CAPTURE_RADIUS := by
  unfold Phagocyte.capture_bacteria phagDist
  dsimp only
  split_ifs with hd
  · simp [hd]
  · simp [hd]

theorem capture_snd_frame (p : Phagocyte) (b : Bacteria) :
    ∃ e, (p.capture_bacteria b).2 = { p with energy := e } := by
  unfold Phagocyte.capture_bacteria
  dsimp only
  split_ifs with hd
  · exact ⟨_, rfl⟩
  · exact ⟨p.energy, rfl⟩

theorem captureScan_phag_frame (b0 : Bacteria) :
    ∀ (bs : List Bacteria) (p : Phagocyte), ∃ e,
      (captureScan p bs).1 = { p with energy := e } := by
  intro bs
  induction bs with
  | nil => intro p; exact ⟨p.energy, rfl⟩
  | cons b bs ih =>
    intro p
    rw [captureScan]
    split
    · obtain ⟨e0, he0⟩ := capture_snd_frame p b
      dsimp only
      split
      · obtain ⟨e, he⟩ := ih (p.capture_bacteria b).2
        rw [he, he0]
        exact ⟨e, rfl⟩
      · obtain ⟨e, he⟩ := ih (p.capture_bacteria b).2
        rw [he, he0]
        exact ⟨e, rfl⟩
    · exact ih p

theorem captureScan_not_mem (b : Bacteria) (halive : b.is_alive) :
    ∀ (bs : List Bacteria) (p : Phagocyte),
      phagDist p b < SimulationConfig.CAPTURE_RADIUS →
      b ∉ (captureScan p bs).2.1 := by
  intro bs
  induction bs with
  | nil => intro p hd h; simp [captureScan] at h
  | cons b0 bs ih =>
    intro p hd
    have hdist_pres : ∀ (q : Phagocyte),
        phagDist (q.capture_bacteria b0).2 b = phagDist q b := by
      intro q
      obtain ⟨e, he⟩ := capture_snd_frame q b0
      rw [he]
      rfl
    rw [captureScan]
    split
    · dsimp only
      split
      · intro hmem
        exact ih (p.capture_bacteria b0).2 (by rw [hdist_pres]; exact hd) hmem
      · next hcap =>
          intro hmem
          rcases List.mem_cons.mp hmem with rfl | hmem2
          · have := (capture_fst_iff p b).mpr hd
            simp [this] at hcap
          · exact ih (p.capture_bacteria b0).2 (by rw [hdist_pres]; exact hd) hmem2
    · next hal =>
        intro hmem
        rcases List.mem_cons.mp hmem with rfl | hmem2
        · exact hal halive
        · exact ih p hd hmem2

theorem feedLoop_no_glucose : ∀ (bs : List Bacteria) (st : Option ℕ),
    feedLoop bs [] st = (bs, [], st, false) := by
  intro bs
  induction bs with
  | nil => intro st; rfl
  | cons b bs ih =>
    intro st
    rw [feedLoop]
    split
    · rw [show findGlucose b [] = none from rfl]
      dsimp only
      rw [ih st]
    · rw [ih st]

/-- `process_interactions` on a one-phagocyte, no-glucose simulation: the
phagocyte sweeps the bacteria list; no exception is possible. -/
theorem process_interactions_single (s : Simulation) (p : Phagocyte)
    (hphag : s.phagocytes = [p]) (hglu : s.glucose = []) (hpalive : p.is_alive) :
    s.process_interactions =
      ({ s with
         phagocytes := [(captureScan p s.bacteria).1],
         bacteria := (captureScan p s.bacteria).2.1,
         glucose := [],
         stats := { s.stats with
                    glucose_consumed := s.stats.glucose_consumed,
                    total_captures := s.stats.total_captures +
                      ((captureScan p s.bacteria).2.2 + 0) } }, false) := by
  unfold Simulation.process_interactions
  rw [hphag, hglu]
  rw [capturesLoop]
  rw [if_pos hpalive]
  dsimp only
  rw [show capturesLoop [] (captureScan p s.bacteria).2.1 =
    ([], (captureScan p s.bacteria).2.1, 0) from rfl]
  dsimp only
  rw [feedLoop_no_glucose]
  dsimp only
  rw [if_neg (by simp : ¬ (false = true))]

/-- A bacterium of the cached ranking that is alive, in range and detectable
is returned by the range query (when the cache is not refreshed). -/
theorem mem_get_ranked (s : Simulation) (p : Phagocyte) (md : Option ℝ) (b : Bacteria)
    (hb : b ∈ s.bacteria_rankings) (halive : b.is_alive)
    (hgap : (s.generation : ℤ) - (s.last_ranking_update : ℤ) <
      (s.ranking_update_frequency : ℤ))
    (hdist : phagDist p b < md.getD SimulationConfig.DETECTION_RADIUS)
    (hdet : p.detect_bacteria b s.background_color) :
    b ∈ (s.get_ranked_bacteria_in_range p md).1 := by
  unfold Simulation.get_ranked_bacteria_in_range
  dsimp only
  rw [if_neg (not_le.mpr hgap)]
  rw [List.mem_map]
  refine ⟨(phagDist p b, b), ?_, rfl⟩
  rw [List.mem_insertionSort]
  rw [List.mem_filterMap]
  refine ⟨b, hb, ?_⟩
  rw [if_pos halive, if_pos ⟨hdist, hdet⟩]
  rfl

/-- C10: a successful `capture_bacteria` mutates only the phagocyte's energy
(the captured bacterium's record is untouched and still alive); the bacterium
leaves the simulation only by `process_interactions` removing it from the
bacteria list; the ranking cache is not touched by `process_interactions`, so
the captured bacterium still sits in the cache and is still returned by the
next range query while the cache is stale (liveness filter permitting). -/
theorem C10_capture_frame_and_stale_cache (s : Simulation) (p : Phagocyte)
    (b : Bacteria)
    (hphag : s.phagocytes = [p]) (hpalive : p.is_alive) (hglu : s.glucose = [])
    (halive : b.is_alive)
    (hdist : phagDist p b < SimulationConfig.CAPTURE_RADIUS)
    (hrank : b ∈ s.bacteria_rankings)
    (hgap : (s.generation : ℤ) - (s.last_ranking_update : ℤ) <
      (s.ranking_update_frequency : ℤ))
    (hdet : p.detect_bacteria b s.background_color) :
    ((p.capture_bacteria b).1 = true ∧
      ∃ e, (p.capture_bacteria b).2 = { p with energy := e }) ∧
    b ∉ (s.process_interactions).1.bacteria ∧
    (s.process_interactions).1.bacteria_rankings = s.bacteria_rankings ∧
    (∃ e, (s.process_interactions).1.phagocytes = [{ p with energy := e }]) ∧
    b.is_alive ∧
    b ∈ ((s.process_interactions).1.get_ranked_bacteria_in_range p none).1 := by
  have hproc := process_interactions_single s p hphag hglu hpalive
  refine ⟨⟨(capture_fst_iff p b).mpr hdist, capture_snd_frame p b⟩, ?_, ?_, ?_, halive, ?_⟩
  · rw [hproc]
    exact captureScan_not_mem b halive s.bacteria p hdist
  · rw [hproc]
  · rw [hproc]
    obtain ⟨e, he⟩ := captureScan_phag_frame b s.bacteria p
    exact ⟨e, by rw [he]⟩
  · rw [hproc]
    apply mem_get_ranked
    · exact hrank
    · exact halive
    · exact hgap
    · show phagDist p b < (none : Option ℝ).getD SimulationConfig.DETECTION_RADIUS
      have hlt : SimulationConfig.CAPTURE_RADIUS < SimulationConfig.DETECTION_RADIUS := by
        rw [SimulationConfig.CAPTURE_RADIUS, SimulationConfig.DETECTION_RADIUS]
        norm_num
      calc phagDist p b < SimulationConfig.CAPTURE_RADIUS := hdist
        _ < SimulationConfig.DETECTION_RADIUS := hlt
    · exact hdet

/-- Witness for C10 in `simC10`: the captured bacterium is removed from the
population yet still appears in the cached ranking and in the next range
query. -/
theorem C10_capture_frame_and_stale_cache_witness :
    (phagHunter.capture_bacteria bactWhiteA).1 = true ∧
    bactWhiteA ∉ (simC10.process_interactions).1.bacteria ∧
    (simC10.process_interactions).1.bacteria_rankings = simC10.bacteria_rankings ∧
    bactWhiteA ∈
      ((simC10.process_interactions).1.get_ranked_bacteria_in_range phagHunter none).1 := by
  have hdist : phagDist phagHunter bactWhiteA < SimulationConfig.CAPTURE_RADIUS := by
    unfold phagDist
    rw [distA, SimulationConfig.CAPTURE_RADIUS]
    norm_num
  have hpalive : phagHunter.is_alive := by
    constructor
    · norm_num [phagHunter]
    · norm_num [phagHunter]
  have h := C10_capture_frame_and_stale_cache simC10 phagHunter bactWhiteA rfl hpalive
    rfl aliveA hdist
    (by show bactWhiteA ∈ [bactWhiteA]; exact List.mem_singleton_self _)
    (by show ((0:ℕ):ℤ) - ((0:ℕ):ℤ) < ((5:ℕ):ℤ); norm_num)
    (by show phagHunter.detect_bacteria bactWhiteA ((0:ℤ), (0:ℤ), (0:ℤ))
        exact detect_max_white phagHunter bactWhiteA rfl rfl rfl)
  exact ⟨h.1.1, h.2.1, h.2.2.1, h.2.2.2.2.2⟩

/-! ### C2 -/

theorem sameFlags_refl (s : Simulation) : sameFlags s s := ⟨rfl, rfl, rfl⟩

theorem sameFlags_trans {a b c : Simulation} (h1 : sameFlags a b) (h2 : sameFlags b c) :
    sameFlags a c :=
  ⟨h1.1.trans h2.1, h1.2.1.trans h2.2.1, h1.2.2.trans h2.2.2⟩

theorem get_ranked_flags (s : Simulation) (p : Phagocyte) (md : Option ℝ) :
    sameFlags (s.get_ranked_bacteria_in_range p md).2 s := by
  unfold Simulation.get_ranked_bacteria_in_range
  dsimp only
  split_ifs with hgap
  · exact ⟨rfl, rfl, rfl⟩
  · exact sameFlags_refl s

theorem phag_move_flags (p : Phagocyte) (w h : ℝ) (s : Simulation) (jx jy : ℝ) :
    sameFlags (p.move w h s jx jy).2 s := by
  unfold Phagocyte.move Phagocyte.find_target_bacteria
  dsimp only
  cases hm : (Simulation.get_ranked_bacteria_in_range s p none).1.head? with
  | none => exact get_ranked_flags s p none
  | some t => exact get_ranked_flags s p none

theorem movePhagocytes_flags (w h : ℝ) (jit : ℕ → ℝ × ℝ) :
    ∀ (ps : List Phagocyte) (i : ℕ) (s : Simulation),
      sameFlags (movePhagocytes w h jit ps i s).2 s := by
  intro ps
  induction ps with
  | nil => intro i s; exact sameFlags_refl s
  | cons p ps ih =>
    intro i s
    rw [movePhagocytes]
    split
    · dsimp only
      exact sameFlags_trans
        (ih (i + 1) (p.move w h s (jit i).1 (jit i).2).2)
        (phag_move_flags p w h s (jit i).1 (jit i).2)
    · exact ih (i + 1) s

theorem move_agents_flags (o : Oracle) (s : Simulation) :
    sameFlags (s.move_agents o) s := by
  have h := movePhagocytes_flags s.canvas_width s.canvas_height o.phagJit s.phagocytes 0
    { s with
      bacteria := s.bacteria.enum.map fun q =>
        if q.2.is_alive then
          q.2.move s.canvas_width s.canvas_height (o.bactJit q.1).1 (o.bactJit q.1).2
        else q.2 }
  exact ⟨h.1, h.2.1, h.2.2⟩

theorem cooldowns_flags (s : Simulation) :
    sameFlags s.update_reproduction_cooldowns s := ⟨rfl, rfl, rfl⟩

theorem process_interactions_flags (s : Simulation) :
    sameFlags (s.process_interactions).1 s := by
  unfold Simulation.process_interactions
  dsimp only
  split
  · exact ⟨rfl, rfl, rfl⟩
  · exact ⟨rfl, rfl, rfl⟩

theorem manage_glucose_flags (o : Oracle) (s : Simulation) :
    sameFlags (s.manage_glucose o) s := by
  unfold Simulation.manage_glucose
  dsimp only
  split
  · exact ⟨rfl, rfl, rfl⟩
  · exact ⟨rfl, rfl, rfl⟩

theorem calculate_fitness_flags (s : Simulation) :
    sameFlags s.calculate_fitness s := ⟨rfl, rfl, rfl⟩

theorem asexual_reproduction_flags (o : Oracle) (s : Simulation) :
    sameFlags (s.asexual_reproduction o) s := ⟨rfl, rfl, rfl⟩

theorem coevolution_step_flags (o : Oracle) (s : Simulation) :
    sameFlags (s.coevolution_step o) s := ⟨rfl, rfl, rfl⟩

theorem epoch_flags (o : Oracle) (s : Simulation) (c : Prop) [Decidable c] :
    sameFlags (if c then s.coevolution_step o else s) s := by
  split_ifs with hc
  · exact coevolution_step_flags o s
  · exact sameFlags_refl s

theorem clean_dead_agents_flags (s : Simulation) :
    sameFlags s.clean_dead_agents s := ⟨rfl, rfl, rfl⟩

theorem clean_incorrect_agents_flags (s : Simulation) :
    sameFlags s.clean_incorrect_agents s := ⟨rfl, rfl, rfl⟩

theorem update_statistics_flags (o : Oracle) (s : Simulation) :
    sameFlags (s.update_statistics o) s := ⟨rfl, rfl, rfl⟩

theorem control_population_size_flags (s : Simulation) :
    sameFlags s.control_population_size s := ⟨rfl, rfl, rfl⟩

/-- C2 (amended): `step` is a no-op under paused or stopped; in the running
state it increments the generation counter by exactly 1 and leaves the
pause/stop flags untouched (the simulation remains steppable), whether the
pipeline runs to completion or the glucose-statistics exception cuts it
short.  The further claim that an interrupted step leaves the state
otherwise unchanged is refuted by `C2_exception_keeps_partial_effects`: the
stages executed before the exception keep their effects. -/
theorem C2_step_generation_and_mode (o : Oracle) (s : Simulation) :
    ((s.is_paused = true ∨ s.is_stopped = true) → s.step o = s) ∧
    (s.is_paused = false → s.is_stopped = false →
      (s.step o).generation = s.generation + 1 ∧
      (s.step o).is_paused = false ∧ (s.step o).is_stopped = false) := by
  constructor
  · intro hmode
    have hb : (s.is_paused || s.is_stopped) = true := by
      rcases hmode with hmode | hmode
      · simp [hmode]
      · simp [hmode]
    unfold Simulation.step
    rw [if_pos hb]
  · intro hp hs
    have key : sameFlags (s.step o) { s with generation := s.generation + 1 } := by
      unfold Simulation.step
      rw [if_neg (by simp [hp, hs])]
      dsimp only
      split
      · exact sameFlags_trans (process_interactions_flags _)
          (sameFlags_trans (cooldowns_flags _) (move_agents_flags o _))
      · refine sameFlags_trans (control_population_size_flags _) ?_
        refine sameFlags_trans (update_statistics_flags o _) ?_
        refine sameFlags_trans (clean_incorrect_agents_flags _) ?_
        refine sameFlags_trans (clean_dead_agents_flags _) ?_
        refine sameFlags_trans (epoch_flags o _ _) ?_
        refine sameFlags_trans (asexual_reproduction_flags o _) ?_
        refine sameFlags_trans (calculate_fitness_flags _) ?_
        refine sameFlags_trans (manage_glucose_flags o _) ?_
        exact sameFlags_trans (process_interactions_flags _)
          (sameFlags_trans (cooldowns_flags _) (move_agents_flags o _))
    exact ⟨key.1, key.2.1.trans hp, key.2.2.trans hs⟩

theorem aliveC4 : bactC4.is_alive := by
  constructor
  · rw [show bactC4.energy = (150:ℝ) from rfl]; norm_num
  · rw [show bactC4.age = 0 from rfl]; norm_num

theorem aliveC4m : bactC4m.is_alive := by
  constructor
  · rw [show bactC4m.energy = (149:ℝ) from rfl]; norm_num
  · rw [show bactC4m.age = 1 from rfl]; norm_num

theorem agentC4_move_eval :
    bactC4.toAgent.move 800 600 0 0 =
      { bactC4.toAgent with
        x := 102, y := 100, vx := 1, vy := 0, age := 1, energy := 149 } := by
  have hn : normalize_velocity (bactC4.toAgent.vx + 0) (bactC4.toAgent.vy + 0) = (1, 0) := by
    rw [show bactC4.toAgent.vx = (1:ℝ) from rfl, show bactC4.toAgent.vy = (0:ℝ) from rfl]
    rw [normalize_velocity_eval
      (sqrt_eval (by norm_num) (by norm_num : ((1:ℝ) + 0) ^ 2 + (0 + 0) ^ 2 = 1 ^ 2))
      (by norm_num : (0:ℝ) < 1)]
    norm_num
  unfold Agent.move
  dsimp only
  rw [hn]
  dsimp only
  rw [if_pos (show bactC4.toAgent.species = "bacteria" from rfl)]
  rw [show bactC4.toAgent.x = (100:ℝ) from rfl, show bactC4.toAgent.y = (100:ℝ) from rfl,
    SimulationConfig.MAX_SPEED, SimulationConfig.AGENT_SIZE]
  rw [if_neg (by norm_num : ¬ ((100:ℝ) + 1 * 2.0 - 5.0 < 0)),
    if_neg (by norm_num : ¬ ((100:ℝ) + 1 * 2.0 + 5.0 > 800)),
    if_neg (by norm_num : ¬ ((100:ℝ) + 0 * 2.0 - 5.0 < 0)),
    if_neg (by norm_num : ¬ ((100:ℝ) + 0 * 2.0 + 5.0 > 600))]
  dsimp only
  rw [show (false || false) = false from rfl]
  rw [if_neg Bool.false_ne_true]
  rw [show bactC4.toAgent.energy = (150:ℝ) from rfl, SimulationConfig.ENERGY_LOSS,
    show bactC4.toAgent.age = 0 from rfl]
  norm_num [max_def, min_def]

theorem bactC4_move_eval : bactC4.move 800 600 0 0 = bactC4m := by
  unfold Bacteria.move
  dsimp only
  rw [agentC4_move_eval]
  dsimp only
  rw [if_pos (Or.inl (by norm_num : |(1:ℝ)| > 0.01))]
  rw [show Complex.arg ⟨1, 0⟩ = 0 by
    rw [show (⟨1, 0⟩ : ℂ) = 1 from rfl]; exact Complex.arg_one]
  rfl

theorem movePhagocytes_nil (w h : ℝ) (jit : ℕ → ℝ × ℝ) (i : ℕ) (s : Simulation) :
    movePhagocytes w h jit [] i s = ([], s) := rfl

theorem moveAgents_C2_eval :
    ({ simC2 with generation := 1 } : Simulation).move_agents oracle0 =
      { simC2 with generation := 1, bacteria := [bactC4m] } := by
  unfold Simulation.move_agents
  dsimp only
  rw [show ({ simC2 with generation := 1 } : Simulation).bacteria = [bactC4] from rfl]
  rw [show List.enum [bactC4] = [(0, bactC4)] from rfl]
  rw [List.map_cons, List.map_nil]
  dsimp only
  rw [if_pos aliveC4]
  rw [show oracle0.bactJit 0 = ((0:ℝ), (0:ℝ)) from rfl]
  rw [show ({ simC2 with generation := 1 } : Simulation).canvas_width = (800:ℝ) from rfl,
    show ({ simC2 with generation := 1 } : Simulation).canvas_height = (600:ℝ) from rfl]
  dsimp only
  rw [bactC4_move_eval]
  rw [show simC2.phagocytes = ([] : List Phagocyte) from rfl]
  rw [movePhagocytes_nil]

theorem cooldowns_C2_eval :
    ({ simC2 with generation := 1, bacteria := [bactC4m] } : Simulation).update_reproduction_cooldowns =
      { simC2 with generation := 1, bacteria := [bactC4m] } := by
  unfold Simulation.update_reproduction_cooldowns
  rw [show ({ simC2 with generation := 1, bacteria := [bactC4m] } : Simulation).bacteria
      = [bactC4m] from rfl]
  rw [List.map_cons, List.map_nil]
  rw [show Bacteria.update_reproduction_cooldown bactC4m = bactC4m by
    unfold Bacteria.update_reproduction_cooldown
    rw [show bactC4m.reproduction_cooldown = 0 from rfl]
    rw [if_neg (by omega : ¬ ((0:ℕ) > 0))]]

theorem glucoseC2_consume_eval :
    glucoseC2.consume SimulationConfig.BACTERIA_GLUCOSE_CONSUMPTION_RATE =
      (0.5, { glucoseC2 with energy := 49.5, size := 9.9 }) := by
  unfold Glucose.consume
  rw [show glucoseC2.consumed = false from rfl]
  rw [if_neg Bool.false_ne_true]
  dsimp only
  rw [show glucoseC2.energy = (50:ℝ) from rfl, show glucoseC2.size = (10:ℝ) from rfl,
    SimulationConfig.BACTERIA_GLUCOSE_CONSUMPTION_RATE]
  rw [show min (0.5:ℝ) 50 = 0.5 by norm_num]
  rw [if_neg (by norm_num : ¬ ((50:ℝ) - 0.5 ≤ 0))]
  norm_num
  rfl

theorem findGlucose_C2_eval : findGlucose bactC4m [glucoseC2] = some ([], glucoseC2, []) := by
  have hcond : glucoseC2.is_active ∧
      Real.sqrt ((bactC4m.x - glucoseC2.x) ^ 2 + (bactC4m.y - glucoseC2.y) ^ 2) <
        SimulationConfig.AGENT_SIZE + glucoseC2.size / 2 := by
    constructor
    · exact ⟨rfl, by rw [show glucoseC2.energy = (50:ℝ) from rfl]; norm_num⟩
    · rw [show bactC4m.x = (102:ℝ) from rfl, show glucoseC2.x = (102:ℝ) from rfl,
        show bactC4m.y = (100:ℝ) from rfl, show glucoseC2.y = (100:ℝ) from rfl,
        show glucoseC2.size = (10:ℝ) from rfl, SimulationConfig.AGENT_SIZE]
      rw [sqrt_eval le_rfl (by norm_num : ((102:ℝ) - 102) ^ 2 + ((100:ℝ) - 100) ^ 2 = 0 ^ 2)]
      norm_num
  rw [findGlucose, if_pos hcond]

theorem feedLoop_C2_eval :
    feedLoop [bactC4m] [glucoseC2] none =
      ([{ bactC4m with energy := 149.5 }],
       [{ glucoseC2 with energy := 49.5, size := 9.9 }], none, true) := by
  rw [feedLoop]
  rw [if_pos aliveC4m]
  rw [findGlucose_C2_eval]
  dsimp only
  rw [glucoseC2_consume_eval]
  dsimp only
  rw [show bactC4m.energy = (149:ℝ) from rfl]
  rw [show min (200:ℝ) (149 + 0.5) = 149.5 by norm_num]
  rfl

theorem procInter_C2_eval :
    ({ simC2 with generation := 1, bacteria := [bactC4m] } : Simulation).process_interactions =
      ({ simC2 with
          generation := 1,
          bacteria := [{ bactC4m with energy := 149.5 }],
          glucose := [{ glucoseC2 with energy := 49.5, size := 9.9 }] }, true) := by
  unfold Simulation.process_interactions
  dsimp only
  rw [show ({ simC2 with generation := 1, bacteria := [bactC4m] } : Simulation).phagocytes
      = [] from rfl,
    show ({ simC2 with generation := 1, bacteria := [bactC4m] } : Simulation).glucose
      = [glucoseC2] from rfl,
    show ({ simC2 with generation := 1, bacteria := [bactC4m] } : Simulation).stats.glucose_consumed
      = none from rfl]
  rw [show capturesLoop [] [bactC4m] = ([], [bactC4m], 0) from rfl]
  dsimp only
  rw [feedLoop_C2_eval]
  dsimp only
  rw [if_pos rfl]
  rfl

theorem simC2_step_eval :
    simC2.step oracle0 =
      { simC2 with
        generation := 1,
        bacteria := [{ bactC4m with energy := 149.5 }],
        glucose := [{ glucoseC2 with energy := 49.5, size := 9.9 }] } := by
  unfold Simulation.step
  have hmode : ¬ ((simC2.is_paused || simC2.is_stopped) = true) := by
    rw [show (simC2.is_paused || simC2.is_stopped) = false from rfl]
    exact Bool.false_ne_true
  rw [if_neg hmode]
  dsimp only
  rw [show ({ simC2 with generation := simC2.generation + 1 } : Simulation)
      = { simC2 with generation := 1 } from rfl]
  rw [moveAgents_C2_eval, cooldowns_C2_eval, procInter_C2_eval]
  dsimp only
  rw [if_pos rfl]

/-- C2 counterexample: `simC2` is running with post-`reset()` statistics (the
`glucose_consumed` key is absent), one bacterium one move away from a glucose
pellet and no phagocytes.  Its `step` raises the glucose-statistics `KeyError`
mid-pipeline; the exception is caught at the `step` boundary and the
generation counter is already incremented, but the state is NOT otherwise
unchanged: the bacterium has moved (x: 100 → 102) and fed (energy 150 → 149
after the move's drain, then 149.5), and the glucose pellet is partially
drained (energy 50 → 49.5).  `generation_times` stays empty because
`update_statistics` was never reached, confirming the tick was cut short. -/
theorem C2_exception_keeps_partial_effects :
    simC2.is_paused = false ∧ simC2.is_stopped = false ∧
    (simC2.step oracle0).generation = simC2.generation + 1 ∧
    simC2.bacteria.map (fun b => (b.x, b.energy)) = [(100, 150)] ∧
    (simC2.step oracle0).bacteria.map (fun b => (b.x, b.energy)) = [(102, 149.5)] ∧
    simC2.glucose.map Glucose.energy = [50] ∧
    (simC2.step oracle0).glucose.map Glucose.energy = [49.5] ∧
    (simC2.step oracle0).stats.generation_times = [] := by
  refine ⟨rfl, rfl, ?_, rfl, ?_, rfl, ?_, ?_⟩ <;> rw [simC2_step_eval] <;> rfl

/-- Witness for C2 on concrete states: a stopped simulation is unchanged by
`step`; the running `simC2` gains exactly one generation and keeps its flags
(even though its pipeline is cut short by the statistics exception). -/
theorem C2_step_generation_and_mode_witness :
    (simC2.stop.step oracle0 = simC2.stop) ∧
    (simC2.step oracle0).generation = simC2.generation + 1 ∧
    (simC2.step oracle0).is_paused = false ∧
    (simC2.step oracle0).is_stopped = false :=
  ⟨(C2_step_generation_and_mode oracle0 simC2.stop).1 (Or.inr rfl),
   (C2_step_generation_and_mode oracle0 simC2).2 rfl rfl⟩
